import Mathlib

/-!
Shallow embedding of the launchpad-keybinder event-dispatch engine: the
`launchpad_mapper` module (including its archived full version, which is the
copy of the module that `server.py` and the test suite exercise),
`schema_validation.py`, and the `import_profile` endpoint of `server.py`,
together with proofs of the specification claims.
-/

namespace Launchpad

/-- Python dict assignment `d[k] = v` on an association list: replaces the
binding in place when the key is present, appends otherwise. -/
def dictInsert {α β : Type} [BEq α] : List (α × β) → α → β → List (α × β)
  | [], k, v => [(k, v)]
  | (k', v') :: rest, k, v =>
    if k' == k then (k', v) :: rest else (k', v') :: dictInsert rest k v

/-- Number of bindings an association list holds for a key (a real Python
dict holds at most one). -/
def countKey {α β : Type} [BEq α] (l : List (α × β)) (k : α) : Nat :=
  (l.filter (fun p => p.1 == k)).length

/-- Updates the first binding of a key in an association list, leaving the
list unchanged when the key is absent. -/
def updateFirst {α β : Type} [BEq α] (l : List (α × β)) (k : α) (f : β → β) :
    List (α × β) :=
  match l with
  | [] => []
  | (k', v) :: rest =>
    if k' == k then (k', f v) :: rest else (k', v) :: updateFirst rest k f

/-- One entry of `PadMapping.macro_steps`: the two optional fields the code
reads from each step dict (`key_combo` and `delay_after`). -/
structure MacroStepData where
  key_combo : Option String
  delay_after : Option Rat
  deriving Repr, DecidableEq

/-- The `PadMapping` dataclass. Float-valued fields are embedded as
rationals. -/
structure PadMapping where
  note : Int
  key_combo : String
  color : String
  label : String
  enabled : Bool
  action : String
  target_layer : Option String
  repeat_enabled : Bool
  repeat_delay : Rat
  repeat_interval : Rat
  macro_steps : Option (List MacroStepData)
  velocity_mappings : Option (List (String × String))
  long_press_enabled : Bool
  long_press_action : String
  long_press_threshold : Rat
  deriving Repr, DecidableEq

/-- Builds a `PadMapping` with the dataclass defaults for every field other
than `note` and `key_combo`. -/
def mkMapping (note : Int) (key_combo : String) : PadMapping :=
  { note := note, key_combo := key_combo, color := "green", label := ""
    enabled := true, action := "key", target_layer := none
    repeat_enabled := false, repeat_delay := 1/2, repeat_interval := 1/20
    macro_steps := none, velocity_mappings := none
    long_press_enabled := false, long_press_action := ""
    long_press_threshold := 1/2 }

/-- The `Profile` class: named layers, each a dict from note to
`PadMapping`. -/
structure Profile where
  name : String
  description : String
  base_layer : String
  layers : List (String × List (Int × PadMapping))
  deriving Repr, DecidableEq

/-- The constructor `Profile.__init__(name, base_layer)`. -/
def Profile.mkNew (name base_layer : String) : Profile :=
  { name := name, description := "", base_layer := base_layer
    layers := [(base_layer, [])] }

/-- The layer name an operation actually uses: Python `layer or
self.base_layer` (both `None` and the empty string fall back to the base
layer). -/
def Profile.layerName (p : Profile) (layer : Option String) : String :=
  match layer with
  | none => p.base_layer
  | some s => if s = "" then p.base_layer else s

/-- The method `Profile.add_mapping`:
`self.layers.setdefault(layer_name, {})[mapping.note] = mapping`. -/
def Profile.add_mapping (p : Profile) (m : PadMapping) (layer : Option String) :
    Profile :=
  let ln := p.layerName layer
  if (p.layers.lookup ln).isSome then
    { p with layers := updateFirst p.layers ln (fun d => dictInsert d m.note m) }
  else
    { p with layers := p.layers ++ [(ln, [(m.note, m)])] }

/-- The method `Profile.ensure_layer`: `self.layers.setdefault(layer, {})`. -/
def Profile.ensure_layer (p : Profile) (layer : String) : Profile :=
  if (p.layers.lookup layer).isSome then p
  else { p with layers := p.layers ++ [(layer, [])] }

/-- The method `Profile.get_layer_mappings`. -/
def Profile.get_layer_mappings (p : Profile) (layer : Option String) :
    List (Int × PadMapping) :=
  (p.layers.lookup (p.layerName layer)).getD []

/-- The method `Profile.get_mapping`. -/
def Profile.get_mapping (p : Profile) (note : Int) (layer : Option String) :
    Option PadMapping :=
  (p.get_layer_mappings layer).lookup note

/-! ### Layer stack (claim C1) -/

/-- The engine state touched by the layer-stack operations. LED repainting
and the layer-change callbacks read this state but never mutate it. -/
structure MapperLayers where
  profile : Profile
  layer_stack : List String
  deriving Repr, DecidableEq

/-- A freshly constructed engine:
`self.layer_stack = [self.profile.base_layer]`. -/
def MapperLayers.start (p : Profile) : MapperLayers :=
  { profile := p, layer_stack := [p.base_layer] }

/-- The property `current_layer`, i.e. `self.layer_stack[-1]`; `none` models
the `IndexError` an empty stack would raise. -/
def MapperLayers.current_layer (s : MapperLayers) : Option String :=
  s.layer_stack.getLast?

/-- The method `push_layer`. -/
def MapperLayers.push_layer (s : MapperLayers) (layer : String) : MapperLayers :=
  { profile := s.profile.ensure_layer layer
    layer_stack := s.layer_stack ++ [layer] }

/-- The method `pop_layer`: pops only when more than one layer is stacked. -/
def MapperLayers.pop_layer (s : MapperLayers) : MapperLayers :=
  if 1 < s.layer_stack.length then
    { s with layer_stack := s.layer_stack.dropLast }
  else s

/-- The method `set_layer`: replaces the whole stack with a singleton. -/
def MapperLayers.set_layer (s : MapperLayers) (layer : String) : MapperLayers :=
  { profile := s.profile.ensure_layer layer, layer_stack := [layer] }

/-- One layer-stack operation of the public API. -/
inductive LayerOp where
  | push (layer : String)
  | pop
  | set (layer : String)
  deriving Repr, DecidableEq

/-- Applies one layer-stack operation. -/
def MapperLayers.applyOp (s : MapperLayers) : LayerOp → MapperLayers
  | .push l => s.push_layer l
  | .pop => s.pop_layer
  | .set l => s.set_layer l

/-- Runs a sequence of layer-stack operations. -/
def MapperLayers.runOps (s : MapperLayers) (ops : List LayerOp) : MapperLayers :=
  ops.foldl MapperLayers.applyOp s

theorem applyOp_length_pos (s : MapperLayers) (op : LayerOp)
    (h : 1 ≤ s.layer_stack.length) : 1 ≤ (s.applyOp op).layer_stack.length := by
  cases op with
  | push l =>
    simp [MapperLayers.applyOp, MapperLayers.push_layer]
  | pop =>
    simp only [MapperLayers.applyOp, MapperLayers.pop_layer]
    split
    · next hlt => simpa using Nat.le_sub_one_of_lt hlt
    · exact h
  | set l =>
    simp [MapperLayers.applyOp, MapperLayers.set_layer]

theorem runOps_length_pos (ops : List LayerOp) (s : MapperLayers)
    (h : 1 ≤ s.layer_stack.length) : 1 ≤ (s.runOps ops).layer_stack.length := by
  induction ops generalizing s with
  | nil => exact h
  | cons op rest ih =>
    exact ih (s.applyOp op) (applyOp_length_pos s op h)

/-- C1: starting from a fresh engine, every sequence of push/pop/set layer
operations keeps the layer stack at depth at least 1; `current_layer`
returns the top (last) element of the stack whenever the stack is nonempty;
and a pop at depth exactly 1 is a safe no-op that leaves the state
unchanged. -/
theorem c1_layer_stack_invariant (p : Profile) (ops : List LayerOp) :
    1 ≤ ((MapperLayers.start p).runOps ops).layer_stack.length
    ∧ (∀ (s : MapperLayers) (h : s.layer_stack ≠ []),
        s.current_layer = some (s.layer_stack.getLast h))
    ∧ (∀ s : MapperLayers, s.layer_stack.length = 1 → s.pop_layer = s) := by
  refine ⟨runOps_length_pos ops _ (by simp [MapperLayers.start]), ?_, ?_⟩
  · intro s h
    simp [MapperLayers.current_layer, List.getLast?_eq_getLast _ h]
  · intro s h
    simp [MapperLayers.pop_layer, h]

/-- Concrete instance of C1: two pops after one push on a fresh engine keep
depth 1, and a pop at depth 1 is the identity. -/
theorem c1_layer_stack_invariant_witness :
    1 ≤ ((MapperLayers.start (Profile.mkNew "Default" "Base")).runOps
        [.push "A", .pop, .pop]).layer_stack.length
    ∧ MapperLayers.pop_layer
        { profile := Profile.mkNew "Default" "Base", layer_stack := ["Base"] }
      = { profile := Profile.mkNew "Default" "Base", layer_stack := ["Base"] } :=
  ⟨(c1_layer_stack_invariant (Profile.mkNew "Default" "Base")
      [.push "A", .pop, .pop]).1,
    (c1_layer_stack_invariant (Profile.mkNew "Default" "Base") []).2.2 _ rfl⟩

/-! ### Velocity-table resolution (claim C2) -/

/-- Python `s.split('-')` on the character list of a string: splits at every
dash, keeping empty parts. -/
def splitDash : List Char → List (List Char)
  | [] => [[]]
  | c :: rest =>
    if c = '-' then [] :: splitDash rest
    else
      match splitDash rest with
      | acc :: t => (c :: acc) :: t
      | [] => [[c]]

/-- Numeric value of a decimal digit list. -/
def digitsVal (cs : List Char) : Nat :=
  cs.foldl (fun acc c => acc * 10 + (c.toNat - 48)) 0

/-- Python `int(...)` restricted to the decimal literals occurring in this
program's data: an optional leading minus followed by one or more digits.
Any other string raises `ValueError`, embedded as `none`. -/
def pyInt : List Char → Option Int
  | '-' :: rest =>
    if rest ≠ [] ∧ rest.all Char.isDigit then some (-(digitsVal rest : Int))
    else none
  | cs =>
    if cs ≠ [] ∧ cs.all Char.isDigit then some (digitsVal cs) else none

/-- Python `low, high = map(int, range_str.split('-'))` guarded by
`'-' in range_str`, with `ValueError` caught by the surrounding handler:
returns the parsed inclusive range, or `none` when the entry is skipped. -/
def parseVelocityRange (s : String) : Option (Int × Int) :=
  if s.data.contains '-' then
    match splitDash s.data with
    | [a, b] =>
      match pyInt a, pyInt b with
      | some low, some high => some (low, high)
      | _, _ => none
    | _ => none
  else none

/-- The lookup loop of `get_velocity_action`: iterate the stored entries in
order and return the first whose parsed range contains the velocity. -/
def velocityLookup (velocity : Int) : List (String × String) → Option String
  | [] => none
  | (range_str, action) :: rest =>
    match parseVelocityRange range_str with
    | some (low, high) =>
      if low ≤ velocity ∧ velocity ≤ high then some action
      else velocityLookup velocity rest
    | none => velocityLookup velocity rest

/-- The method `get_velocity_action`: velocity-table resolution with
`key_combo` as the fallback for an absent table, an empty table, or no
matching range. -/
def get_velocity_action (m : PadMapping) (velocity : Int) : String :=
  match m.velocity_mappings with
  | none => m.key_combo
  | some entries =>
    if entries.isEmpty then m.key_combo
    else
      match velocityLookup velocity entries with
      | some action => action
      | none => m.key_combo

/-- Resolution rule exactly as the specification words it: the first entry in
stored order whose inclusive range contains the velocity, else the default
key combo. -/
def velocityTableSpec (default : String) (velocity : Int) :
    List ((Int × Int) × String) → String
  | [] => default
  | ((low, high), action) :: rest =>
    if low ≤ velocity ∧ velocity ≤ high then action
    else velocityTableSpec default velocity rest

/-- The example mapping of the specification: velocity table
`[(0,42,"a"), (43,84,"b"), (85,127,"c")]` with default combo `"z"`. -/
def velocityExampleMapping : PadMapping :=
  { mkMapping 0 "z" with
    velocity_mappings := some [("0-42", "a"), ("43-84", "b"), ("85-127", "c")] }

/-- The fallback example of the specification: table `[(50,60,"x")]` with
default combo `"z"`. -/
def velocityFallbackMapping : PadMapping :=
  { mkMapping 0 "z" with velocity_mappings := some [("50-60", "x")] }

theorem velocityLookup_spec (velocity : Int) (default : String)
    (raw : List (String × String)) (entries : List ((Int × Int) × String))
    (hparse : raw.map (fun e => (parseVelocityRange e.1, e.2))
      = entries.map (fun e => (some e.1, e.2))) :
    (match velocityLookup velocity raw with
      | some action => action
      | none => default) = velocityTableSpec default velocity entries := by
  induction raw generalizing entries with
  | nil =>
    cases entries with
    | nil => simp [velocityLookup, velocityTableSpec]
    | cons e es => simp at hparse
  | cons r rs ih =>
    obtain ⟨range_str, raction⟩ := r
    cases entries with
    | nil => simp at hparse
    | cons e es =>
      obtain ⟨⟨low, high⟩, action⟩ := e
      simp only [List.map_cons, List.cons.injEq, Prod.mk.injEq] at hparse
      obtain ⟨⟨h1, h2⟩, htail⟩ := hparse
      simp only [velocityLookup, h1, h2]
      by_cases hcond : low ≤ velocity ∧ velocity ≤ high
      · simp [velocityTableSpec, hcond]
      · simp only [velocityTableSpec, if_neg hcond]
        exact ih es htail

/-- C2: with a stored velocity table, `get_velocity_action` returns the key
combo of the first entry in stored order whose inclusive range contains the
velocity, falling back to the default `key_combo` when no range matches or
when the table is empty or absent; in particular the table
`[(0,42,"a"), (43,84,"b"), (85,127,"c")]` resolves velocities 0 and 42 to
"a", 43 and 84 to "b", 85 and 127 to "c", and table `[(50,60,"x")]` at
velocity 30 falls back to the default combo. -/
theorem c2_velocity_resolution (m : PadMapping) (velocity : Int)
    (raw : List (String × String)) (entries : List ((Int × Int) × String))
    (hm : m.velocity_mappings = some raw)
    (hparse : raw.map (fun e => (parseVelocityRange e.1, e.2))
      = entries.map (fun e => (some e.1, e.2))) :
    get_velocity_action m velocity = velocityTableSpec m.key_combo velocity entries
    ∧ (∀ m' : PadMapping, m'.velocity_mappings = none →
        get_velocity_action m' velocity = m'.key_combo)
    ∧ (get_velocity_action velocityExampleMapping 0 = "a"
      ∧ get_velocity_action velocityExampleMapping 42 = "a"
      ∧ get_velocity_action velocityExampleMapping 43 = "b"
      ∧ get_velocity_action velocityExampleMapping 84 = "b"
      ∧ get_velocity_action velocityExampleMapping 85 = "c"
      ∧ get_velocity_action velocityExampleMapping 127 = "c"
      ∧ get_velocity_action velocityFallbackMapping 30 = "z") := by
  refine ⟨?_, ?_, by decide⟩
  · cases raw with
    | nil =>
      cases entries with
      | nil => simp [get_velocity_action, hm, velocityTableSpec]
      | cons e es => simp at hparse
    | cons r rs =>
      simp only [get_velocity_action, hm, List.isEmpty_cons, Bool.false_eq_true,
        if_false]
      exact velocityLookup_spec velocity m.key_combo (r :: rs) entries hparse
  · intro m' hm'
    simp [get_velocity_action, hm']

/-- Concrete instance of C2: the specification's example table resolves
velocity 42 according to the first-match rule. -/
theorem c2_velocity_resolution_witness :
    velocityExampleMapping.velocity_mappings
      = some [("0-42", "a"), ("43-84", "b"), ("85-127", "c")]
    ∧ get_velocity_action velocityExampleMapping 42
      = velocityTableSpec velocityExampleMapping.key_combo 42
          [((0, 42), "a"), ((43, 84), "b"), ((85, 127), "c")] :=
  ⟨rfl,
    (c2_velocity_resolution velocityExampleMapping 42
      [("0-42", "a"), ("43-84", "b"), ("85-127", "c")]
      [((0, 42), "a"), ((43, 84), "b"), ((85, 127), "c")]
      rfl (by decide)).1⟩

/-! ### Key-repeat task bookkeeping (claim C6) -/

/-- The repeat bookkeeping of the engine: `active_repeats` maps a note to
its worker-thread handle and `repeat_stop_events` maps a note to its stop
event. Freshly created thread/event objects are modelled by an allocation
counter. -/
structure RepeatState where
  active_repeats : List (Int × Nat)
  repeat_stop_events : List (Int × Nat)
  next_handle : Nat
  deriving Repr, DecidableEq

/-- The method `start_key_repeat`: a no-op when the note already has an
active repeat task; otherwise allocates a stop event and a worker thread
and records both. -/
def start_key_repeat (s : RepeatState) (note : Int) : RepeatState :=
  if (s.active_repeats.lookup note).isSome then s
  else
    { active_repeats := dictInsert s.active_repeats note (s.next_handle + 1)
      repeat_stop_events := dictInsert s.repeat_stop_events note s.next_handle
      next_handle := s.next_handle + 2 }

/-- The method `stop_key_repeat`: signals and removes the stop event and
drops the task entry; a safe no-op when the note has neither. -/
def stop_key_repeat (s : RepeatState) (note : Int) : RepeatState :=
  { s with
    repeat_stop_events := s.repeat_stop_events.filter (fun p => !(p.1 == note))
    active_repeats := s.active_repeats.filter (fun p => !(p.1 == note)) }

theorem lookup_dictInsert_self {α β : Type} [BEq α] [LawfulBEq α]
    (l : List (α × β)) (k : α) (v : β) :
    (dictInsert l k v).lookup k = some v := by
  induction l with
  | nil => simp [dictInsert, List.lookup]
  | cons p rest ih =>
    obtain ⟨k', v'⟩ := p
    by_cases h : k' = k
    · subst h
      simp [dictInsert, List.lookup]
    · have hb : (k' == k) = false := beq_eq_false_iff_ne.mpr h
      have hb' : (k == k') = false := beq_eq_false_iff_ne.mpr (Ne.symm h)
      simp [dictInsert, List.lookup, hb, hb', ih]

theorem countKey_dictInsert_of_absent {α β : Type} [BEq α] [LawfulBEq α]
    (l : List (α × β)) (k : α) (v : β) (h : l.lookup k = none) :
    countKey (dictInsert l k v) k = 1 := by
  induction l with
  | nil => simp [dictInsert, countKey, List.filter]
  | cons p rest ih =>
    obtain ⟨k', v'⟩ := p
    by_cases hk : k = k'
    · subst hk
      simp [List.lookup] at h
    · have hb : (k == k') = false := beq_eq_false_iff_ne.mpr hk
      have hb' : (k' == k) = false := beq_eq_false_iff_ne.mpr (Ne.symm hk)
      simp only [List.lookup, hb] at h
      simp only [dictInsert, hb', Bool.false_eq_true, if_false, countKey,
        List.filter, hb']
      simpa [countKey] using ih h

theorem countKey_dictInsert_nodup {α β : Type} [BEq α] [LawfulBEq α]
    (l : List (α × β)) (k : α) (v : β) (h : (l.map Prod.fst).Nodup) :
    countKey (dictInsert l k v) k = 1 := by
  induction l with
  | nil => simp [dictInsert, countKey, List.filter]
  | cons p rest ih =>
    obtain ⟨k', v'⟩ := p
    simp only [List.map_cons, List.nodup_cons] at h
    obtain ⟨hnotin, hrest⟩ := h
    by_cases hk : k' = k
    · subst hk
      have hzero : rest.filter (fun p => p.1 == k') = [] := by
        apply List.filter_eq_nil_iff.mpr
        intro q hq
        have : (q.1 == k') = false := beq_eq_false_iff_ne.mpr
          (fun he => hnotin (List.mem_map.mpr ⟨q, hq, he⟩))
        simp [this]
      simp [dictInsert, countKey, List.filter, hzero]
    · have hb' : (k' == k) = false := beq_eq_false_iff_ne.mpr hk
      simp only [dictInsert, hb', Bool.false_eq_true, if_false, countKey,
        List.filter, hb']
      simpa [countKey] using ih hrest

/-- C6: starting a key-repeat loop twice for the same note without an
intervening stop is idempotent — the second `start_key_repeat` call is a
no-op returning exactly the state of the first call — and when the note had
no active task, the resulting state holds exactly one repeat task and one
stop event for that note. -/
theorem c6_start_key_repeat_idempotent (s : RepeatState) (note : Int)
    (hnodup : (s.repeat_stop_events.map Prod.fst).Nodup) :
    start_key_repeat (start_key_repeat s note) note = start_key_repeat s note
    ∧ (s.active_repeats.lookup note = none →
        countKey (start_key_repeat s note).active_repeats note = 1
        ∧ countKey (start_key_repeat s note).repeat_stop_events note = 1) := by
  constructor
  · by_cases h : (s.active_repeats.lookup note).isSome
    · simp [start_key_repeat, h]
    · simp [start_key_repeat, h, lookup_dictInsert_self]
  · intro habs
    have hfalse : (s.active_repeats.lookup note).isSome = false := by
      simp [habs]
    simp only [start_key_repeat, hfalse, Bool.false_eq_true, if_false]
    exact ⟨countKey_dictInsert_of_absent _ _ _ habs,
      countKey_dictInsert_nodup _ _ _ hnodup⟩

/-- Concrete instance of C6: double-start on a fresh engine equals a single
start, which holds exactly one task and one stop event for the note. -/
theorem c6_start_key_repeat_idempotent_witness :
    start_key_repeat (start_key_repeat ⟨[], [], 0⟩ 36) 36
      = start_key_repeat ⟨[], [], 0⟩ 36
    ∧ countKey (start_key_repeat ⟨[], [], 0⟩ 36).active_repeats 36 = 1
    ∧ countKey (start_key_repeat ⟨[], [], 0⟩ 36).repeat_stop_events 36 = 1 :=
  ⟨(c6_start_key_repeat_idempotent ⟨[], [], 0⟩ 36 (by decide)).1,
    (c6_start_key_repeat_idempotent ⟨[], [], 0⟩ 36 (by decide)).2 rfl⟩

/-! ### Macro execution (claim C7) -/

/-- Observable actions performed by `execute_key_combo` and the macro
worker: successful injection, caught-and-logged injection failure, a
slider-bridge command, or a sleep. -/
inductive KeyEvent where
  | injected (combo : String)
  | injectFailed (combo : String) (err : String)
  | lrCommand (command : String)
  | slept (duration : Rat)
  deriving Repr, DecidableEq

/-- Python `str.strip()` on a character list. -/
def trimChars (cs : List Char) : List Char :=
  ((cs.dropWhile Char.isWhitespace).reverse.dropWhile Char.isWhitespace).reverse

/-- Python `combo.split(':', 1)[1].strip()` for a combo beginning with
`"lrslider:"` (the first colon is the one ending that prefix). -/
def lrPayload (combo : String) : String :=
  ⟨trimChars (combo.data.drop 9)⟩

/-- The method `execute_key_combo`, parameterised by an injection oracle:
`sendErr combo = some err` means `keyboard.send` raises an exception with
message `err`, which the method catches and logs; `none` means the send
succeeds. A combo with the `lrslider:` prefix is routed to the slider
bridge instead of the key injector. -/
def execute_key_combo (sendErr : String → Option String) (combo : String) :
    List KeyEvent :=
  if "lrslider:".data.isPrefixOf combo.data then
    let command := lrPayload combo
    if command ≠ "" then [.lrCommand command] else []
  else
    match sendErr combo with
    | none => [.injected combo]
    | some err => [.injectFailed combo err]

/-- The body of `macro_worker`: for each step in stored order, read
`key_combo` (default `""`) and `delay_after` (default `0.0`), inject the
combo when nonempty, then sleep the post-delay when positive. -/
def macro_worker (sendErr : String → Option String) :
    List MacroStepData → List KeyEvent
  | [] => []
  | step :: rest =>
    ((if step.key_combo.getD "" ≠ "" then
        execute_key_combo sendErr (step.key_combo.getD "") else [])
      ++ (if 0 < step.delay_after.getD 0 then
        [.slept (step.delay_after.getD 0)] else []))
      ++ macro_worker sendErr rest

/-- The method `execute_macro` of the engine: returns without spawning when
`macro_steps` is `None` or empty, else runs the worker as a background
task; the worker's event trace is returned. -/
def executeMacro (sendErr : String → Option String) (m : PadMapping) :
    List KeyEvent :=
  match m.macro_steps with
  | none => []
  | some steps => if steps.isEmpty then [] else macro_worker sendErr steps

/-- Observation of a macro event that forgets whether an injection failed:
both a successful and a failed send are recorded as the combo being handed
to the key injector. -/
def KeyEvent.obs : KeyEvent → KeyEvent
  | .injected c => .injected c
  | .injectFailed c _ => .injected c
  | e => e

/-- C7: for a mapping with a non-empty macro step list (none of whose combos
is a slider-bridge command), the macro executes the steps strictly in
stored order — injecting each step's key combo, then sleeping its
post-delay — and the attempted sequence is independent of the injection
oracle: a failed injection is logged in place and every remaining step
still executes. -/
theorem c7_macro_order_resilient (sendErr : String → Option String)
    (m : PadMapping) (steps : List MacroStepData)
    (hm : m.macro_steps = some steps) (hne : steps ≠ [])
    (hlr : ∀ step ∈ steps,
      ¬("lrslider:".data.isPrefixOf (step.key_combo.getD "").data = true)) :
    (executeMacro sendErr m).map KeyEvent.obs
      = steps.flatMap (fun step =>
          (if step.key_combo.getD "" ≠ "" then
            [KeyEvent.injected (step.key_combo.getD "")] else [])
          ++ (if 0 < step.delay_after.getD 0 then
            [KeyEvent.slept (step.delay_after.getD 0)] else [])) := by
  have hne' : steps.isEmpty = false := by
    cases steps with
    | nil => exact absurd rfl hne
    | cons a l => rfl
  simp only [executeMacro, hm, hne', Bool.false_eq_true, if_false]
  clear hm hne hne'
  induction steps with
  | nil => simp [macro_worker]
  | cons step rest ih =>
    have hstep := hlr step (by simp)
    have hrest : ∀ s ∈ rest,
        ¬("lrslider:".data.isPrefixOf (s.key_combo.getD "").data = true) := by
      intro s hs
      exact hlr s (by simp [hs])
    simp only [macro_worker, List.flatMap_cons, List.map_append, ih hrest]
    congr 1
    by_cases hc : step.key_combo.getD "" ≠ ""
    · simp only [hc, if_true, execute_key_combo, if_neg hstep]
      cases sendErr (step.key_combo.getD "") with
      | none => simp [apply_ite (List.map KeyEvent.obs), KeyEvent.obs]
      | some err => simp [apply_ite (List.map KeyEvent.obs), KeyEvent.obs]
    · simp [hc, apply_ite (List.map KeyEvent.obs), KeyEvent.obs]

/-- The macro example mapping: two steps, the first with a one-second
post-delay. -/
def macroExampleMapping : PadMapping :=
  { mkMapping 0 "" with
    macro_steps := some [⟨some "ctrl+c", some 1⟩, ⟨some "ctrl+v", none⟩] }

/-- Concrete instance of C7: even when injecting the first combo fails, both
steps of the example macro are attempted in order. -/
theorem c7_macro_order_resilient_witness :
    (executeMacro (fun c => if c = "ctrl+c" then some "boom" else none)
        macroExampleMapping).map KeyEvent.obs
      = [(⟨some "ctrl+c", some 1⟩ : MacroStepData), ⟨some "ctrl+v", none⟩].flatMap
          (fun step =>
            (if step.key_combo.getD "" ≠ "" then
              [KeyEvent.injected (step.key_combo.getD "")] else [])
            ++ (if 0 < step.delay_after.getD 0 then
              [KeyEvent.slept (step.delay_after.getD 0)] else [])) :=
  c7_macro_order_resilient (fun c => if c = "ctrl+c" then some "boom" else none)
    macroExampleMapping [⟨some "ctrl+c", some 1⟩, ⟨some "ctrl+v", none⟩]
    rfl (by decide) (by decide)

/-! ### Long-press dispatch (claim C3) -/

/-- Per-press engine state for one control: whether the note is still in
`press_times`, its `long_press_triggered` flag, and which of the possible
actions have been injected during the cycle. -/
structure PressState where
  pressed : Bool
  long_press_triggered : Bool
  shortFired : Bool
  longFired : Bool
  immediateFired : Bool
  deriving Repr, DecidableEq

/-- The initial per-press state before the press-down event. -/
def PressState.idle : PressState :=
  ⟨false, false, false, false, false⟩

/-- Whether the press-down handler arms the long-press timer thread for this
mapping: the mapping is enabled, is not a layer action, and has long press
enabled with a non-empty alternate action. -/
def timerArmed (m : PadMapping) : Prop :=
  m.enabled = true ∧ m.action ≠ "layer_up"
    ∧ ¬(m.action = "layer" ∧ m.target_layer.isSome = true)
    ∧ m.long_press_enabled = true ∧ m.long_press_action ≠ ""

instance (m : PadMapping) : Decidable (timerArmed m) := by
  unfold timerArmed
  infer_instance

/-- The press-down handler (`note_on` with positive velocity): records the
press time, clears the triggered flag, and — for an enabled non-layer
mapping without long press configured — runs the immediate action. When the
timer is armed, no action runs at press time. -/
def pressDown (m : PadMapping) (s : PressState) : PressState :=
  let s1 := { s with pressed := true, long_press_triggered := false }
  if m.enabled = true then
    if m.action = "layer_up" then s1
    else if m.action = "layer" ∧ m.target_layer.isSome = true then s1
    else if m.long_press_enabled = true ∧ m.long_press_action ≠ "" then s1
    else { s1 with immediateFired := true }
  else s1

/-- The long-press timer body after its `time.sleep(threshold)`: if the note
is still pressed and not yet triggered, mark `long_press_triggered` and
inject the alternate action. -/
def timerFire (s : PressState) : PressState :=
  if s.pressed = true ∧ s.long_press_triggered = false then
    { s with long_press_triggered := true, longFired := true }
  else s

/-- The release handler (`note_off`): when the note is pressed, the mapping
enabled with long press configured, the timer has not fired, and the hold
stayed below the threshold, the primary short-press action runs; then the
press state is cleared. -/
def releaseUp (m : PadMapping) (hold : Rat) (s : PressState) : PressState :=
  let s1 :=
    if s.pressed = true ∧ m.enabled = true ∧ m.long_press_enabled = true
        ∧ s.long_press_triggered = false ∧ hold < m.long_press_threshold then
      { s with shortFired := true }
    else s
  { s1 with pressed := false, long_press_triggered := false }

/-- One full press–release cycle held for `hold` seconds, under the
idealised scheduling that the armed timer thread (which sleeps exactly
`thresholdSeconds`) runs before the release handler iff the hold reaches
the threshold; a timer that wakes only after release re-checks the press
state and does nothing. -/
def pressCycle (m : PadMapping) (hold : Rat) : PressState :=
  let s0 := pressDown m PressState.idle
  if timerArmed m ∧ m.long_press_threshold ≤ hold then
    releaseUp m hold (timerFire s0)
  else
    let s2 := releaseUp m hold s0
    if timerArmed m then timerFire s2 else s2

/-- C3: for an enabled key mapping with long press enabled and a non-empty
alternate action, exactly one of the two actions runs per press–release
cycle — the short-press action iff the control is released before the
threshold, the long-press action iff the hold reaches the threshold (which
permanently suppresses the short press) — never both, and no immediate
action runs at press time. -/
theorem c3_long_press_exclusive (m : PadMapping) (hold : Rat)
    (henab : m.enabled = true) (hkey : m.action = "key")
    (hen : m.long_press_enabled = true) (hact : m.long_press_action ≠ "") :
    ((pressCycle m hold).shortFired = true ↔ hold < m.long_press_threshold)
    ∧ ((pressCycle m hold).longFired = true ↔ m.long_press_threshold ≤ hold)
    ∧ ¬((pressCycle m hold).shortFired = true
        ∧ (pressCycle m hold).longFired = true)
    ∧ (pressCycle m hold).immediateFired = false := by
  have harmed : timerArmed m := by
    refine ⟨henab, ?_, ?_, hen, hact⟩ <;> simp [hkey]
  by_cases hth : m.long_press_threshold ≤ hold
  · have hnotlt : ¬(hold < m.long_press_threshold) := not_lt.mpr hth
    simp [pressCycle, pressDown, timerFire, releaseUp, harmed, hth, henab,
      hkey, hen, hact, hnotlt, PressState.idle]
  · have hlt : hold < m.long_press_threshold := lt_of_not_le hth
    simp [pressCycle, pressDown, timerFire, releaseUp, harmed, hth, henab,
      hkey, hen, hact, hlt, PressState.idle]

/-- The long-press example mapping: threshold one second, alternate action
configured. -/
def longPressExampleMapping : PadMapping :=
  { mkMapping 0 "short" with
    long_press_enabled := true, long_press_action := "alt"
    long_press_threshold := 1 }

/-- Concrete instance of C3: a two-second hold on the example mapping fires
exactly the long-press action; a quarter-second hold fires exactly the
short-press action. -/
theorem c3_long_press_exclusive_witness :
    (pressCycle longPressExampleMapping 2).longFired = true
    ∧ (pressCycle longPressExampleMapping 2).shortFired = false
    ∧ (pressCycle longPressExampleMapping (1/4)).shortFired = true
    ∧ (pressCycle longPressExampleMapping (1/4)).longFired = false := by
  have h2 := c3_long_press_exclusive longPressExampleMapping 2 rfl rfl rfl
    (by decide)
  have hq := c3_long_press_exclusive longPressExampleMapping (1/4) rfl rfl rfl
    (by decide)
  have hth : longPressExampleMapping.long_press_threshold = 1 := rfl
  refine ⟨h2.2.1.mpr (by rw [hth]; norm_num), ?_, hq.1.mpr (by rw [hth]; norm_num), ?_⟩
  · cases hsf : (pressCycle longPressExampleMapping 2).shortFired
    · rfl
    · exact absurd (h2.1.mp hsf) (by rw [hth]; norm_num)
  · cases hlf : (pressCycle longPressExampleMapping (1/4)).longFired
    · rfl
    · exact absurd (hq.2.1.mp hlf) (by rw [hth]; norm_num)

/-! ### Idle detection (claim C8) -/

/-- The session state read and written by `_idle_timeout_worker` and
`reset_activity`. The LED surface is summarised by `showsMappings` (the
enabled mappings of the current layer are painted) and `idleActive` (the
idle-animation thread is alive); `starts` counts idle-animation spawns and
`hasActive` is `_has_active_mappings()` for the current layer. -/
structure IdleState where
  running : Bool
  output : Bool
  hasActive : Bool
  last_activity_time : Rat
  idle_animation_triggered : Bool
  idleActive : Bool
  starts : Nat
  showsMappings : Bool
  deriving Repr, DecidableEq

/-- `_start_idle_animation`: spawns the worker thread unless it is already
alive. -/
def startIdleAnimation (s : IdleState) : IdleState :=
  if s.idleActive = true then s
  else { s with idleActive := true, starts := s.starts + 1, showsMappings := false }

/-- `_stop_idle_animation`: signals the stop event and joins the worker. -/
def stopIdleAnimation (s : IdleState) : IdleState :=
  { s with idleActive := false }

/-- `update_pad_colors` of the full engine: stops any idle animation, clears
all pads, then either restarts the idle animation (no active mappings and
an output present) or paints the enabled mappings. -/
def update_pad_colors (s : IdleState) : IdleState :=
  let s1 := { stopIdleAnimation s with showsMappings := false }
  if s.hasActive = false then
    if s.output = true then startIdleAnimation s1 else s1
  else { s1 with showsMappings := true }

/-- The idle threshold: `self.idle_timeout = 120` seconds. -/
def idle_timeout : Rat := 120

/-- One pass of the `_idle_timeout_worker` loop waking at time `now`:
skipped unless the mapper is running with an output port; when the elapsed
idle time reaches the threshold and `idle_animation_triggered` is still
clear, starts the idle animation and sets the flag. -/
def idleCheck (now : Rat) (s : IdleState) : IdleState :=
  if s.running = false ∨ s.output = false then s
  else if idle_timeout ≤ now - s.last_activity_time
      ∧ s.idle_animation_triggered = false then
    { startIdleAnimation s with idle_animation_triggered := true }
  else s

/-- Runs the periodic idle check at each of the given wake times. -/
def runIdleChecks (s : IdleState) : List Rat → IdleState
  | [] => s
  | t :: ts => runIdleChecks (idleCheck t s) ts

/-- The method `reset_activity`: stamps the activity time, stops the idle
animation, clears the triggered flag, and repaints when running. -/
def reset_activity (now : Rat) (s : IdleState) : IdleState :=
  let s1 := { s with last_activity_time := now }
  let s2 := stopIdleAnimation s1
  let s3 := { s2 with idle_animation_triggered := false }
  if s3.running = true then update_pad_colors s3 else s3

theorem idleCheck_of_triggered (t : Rat) (s : IdleState)
    (h : s.idle_animation_triggered = true) : idleCheck t s = s := by
  unfold idleCheck
  split
  · rfl
  · rw [if_neg (by simp [h])]

theorem runIdleChecks_of_triggered (ts : List Rat) (s : IdleState)
    (h : s.idle_animation_triggered = true) : runIdleChecks s ts = s := by
  induction ts with
  | nil => rfl
  | cons t ts ih => rw [runIdleChecks, idleCheck_of_triggered t s h, ih]

theorem runIdleChecks_starts_once (s : IdleState) (ts : List Rat)
    (hrun : s.running = true) (hout : s.output = true)
    (htrig : s.idle_animation_triggered = false) (hanim : s.idleActive = false)
    (hex : ∃ t ∈ ts, idle_timeout ≤ t - s.last_activity_time) :
    (runIdleChecks s ts).starts = s.starts + 1 := by
  induction ts with
  | nil => simp at hex
  | cons t ts ih =>
    by_cases hc : idle_timeout ≤ t - s.last_activity_time
    · have hstep : idleCheck t s
          = { startIdleAnimation s with idle_animation_triggered := true } := by
        unfold idleCheck
        rw [if_neg (by simp [hrun, hout]), if_pos ⟨hc, htrig⟩]
      rw [runIdleChecks, hstep, runIdleChecks_of_triggered ts _ rfl]
      simp [startIdleAnimation, hanim]
    · have hstep : idleCheck t s = s := by
        unfold idleCheck
        rw [if_neg (by simp [hrun, hout]), if_neg (by simp [hc])]
      rw [runIdleChecks, hstep]
      apply ih
      obtain ⟨u, hu, hcu⟩ := hex
      rcases List.mem_cons.mp hu with rfl | hu'
      · exact absurd hcu hc
      · exact ⟨u, hu', hcu⟩

theorem runIdleChecks_no_crossing (s : IdleState) (ts : List Rat)
    (hrun : s.running = true) (hout : s.output = true)
    (hall : ∀ t ∈ ts, ¬(idle_timeout ≤ t - s.last_activity_time)) :
    runIdleChecks s ts = s := by
  induction ts with
  | nil => rfl
  | cons t ts ih =>
    have hstep : idleCheck t s = s := by
      unfold idleCheck
      rw [if_neg (by simp [hrun, hout]), if_neg (by simp [hall t (by simp)])]
    rw [runIdleChecks, hstep]
    exact ih (fun u hu => hall u (by simp [hu]))

/-- C8: for a running session with an output port and the idle guard still
clear, the periodic idle check starts the idle animation exactly once when
some check crosses the idle threshold — no matter how many more checks run —
and not at all when no check crosses it; and `reset_activity` on a running
session with active mappings stops the idle animation, clears the guard
flag, and repaints the real mapping state. -/
theorem c8_idle_animation_once (s : IdleState) (ts : List Rat) (now : Rat)
    (hrun : s.running = true) (hout : s.output = true)
    (htrig : s.idle_animation_triggered = false)
    (hanim : s.idleActive = false) :
    ((∃ t ∈ ts, idle_timeout ≤ t - s.last_activity_time) →
      (runIdleChecks s ts).starts = s.starts + 1)
    ∧ ((∀ t ∈ ts, ¬(idle_timeout ≤ t - s.last_activity_time)) →
      runIdleChecks s ts = s)
    ∧ (∀ s' : IdleState, s'.running = true → s'.hasActive = true →
        (reset_activity now s').idleActive = false
        ∧ (reset_activity now s').idle_animation_triggered = false
        ∧ (reset_activity now s').showsMappings = true) := by
  refine ⟨runIdleChecks_starts_once s ts hrun hout htrig hanim,
    runIdleChecks_no_crossing s ts hrun hout, ?_⟩
  intro s' hr ha
  simp [reset_activity, update_pad_colors, stopIdleAnimation, hr, ha]

/-- An idle session state used to instantiate C8: running, output present,
active mappings, last activity at time 0. -/
def idleExampleState : IdleState :=
  { running := true, output := true, hasActive := true
    last_activity_time := 0, idle_animation_triggered := false
    idleActive := false, starts := 0, showsMappings := true }

/-- Concrete instance of C8: a check at t = 130 (threshold 120) starts the
idle animation exactly once, and `reset_activity` at t = 200 stops it and
repaints the mapping state. -/
theorem c8_idle_animation_once_witness :
    (runIdleChecks idleExampleState [130]).starts = idleExampleState.starts + 1
    ∧ (reset_activity 200 idleExampleState).idleActive = false
    ∧ (reset_activity 200 idleExampleState).showsMappings = true := by
  have h := c8_idle_animation_once idleExampleState [130] 200 rfl rfl rfl rfl
  refine ⟨h.1 ⟨130, by simp, ?_⟩, (h.2.2 idleExampleState rfl rfl).1,
    (h.2.2 idleExampleState rfl rfl).2.2⟩
  show idle_timeout ≤ 130 - idleExampleState.last_activity_time
  rw [show idleExampleState.last_activity_time = 0 from rfl]
  norm_num [idle_timeout]

/-! ### Connection-lock mutual exclusion (claim C9) -/

/-- Program counter of a thread running the explicit `connect()`. -/
inductive ExplState where
  | idle
  | opening
  deriving Repr, DecidableEq

/-- Program counter of the `_auto_reconnect_worker` loop. -/
inductive AutoState where
  | sleeping
  | trying
  | checked
  | calling
  | opening
  deriving Repr, DecidableEq

/-- Which thread currently holds the non-reentrant connection lock. -/
inductive LockOwner where
  | expl
  | auto
  deriving Repr, DecidableEq

/-- A configuration of the two threads and the connection lock. -/
structure LockConfig where
  e : ExplState
  a : AutoState
  lock : Option LockOwner
  deriving Repr, DecidableEq

/-- Interleaved transitions of an explicit `connect()` caller and the
auto-reconnect worker. The explicit caller blocks on
`with self.connection_lock` and opens ports only inside it. The worker
wakes, tries `connection_lock.acquire(blocking=False)` — skipping the whole
cycle when the lock is held — releases immediately on success, and then
calls `connect()`, which re-acquires the lock around its port opening. -/
inductive LockStep : LockConfig → LockConfig → Prop where
  | eAcquire (a : AutoState) : LockStep ⟨.idle, a, none⟩ ⟨.opening, a, some .expl⟩
  | eRelease (a : AutoState) : LockStep ⟨.opening, a, some .expl⟩ ⟨.idle, a, none⟩
  | aWake (e : ExplState) (l : Option LockOwner) :
      LockStep ⟨e, .sleeping, l⟩ ⟨e, .trying, l⟩
  | aTrySkip (e : ExplState) (l : Option LockOwner) (h : l ≠ none) :
      LockStep ⟨e, .trying, l⟩ ⟨e, .sleeping, l⟩
  | aTryAcquire (e : ExplState) : LockStep ⟨e, .trying, none⟩ ⟨e, .checked, some .auto⟩
  | aPreRelease (e : ExplState) : LockStep ⟨e, .checked, some .auto⟩ ⟨e, .calling, none⟩
  | aConnectAcquire (e : ExplState) :
      LockStep ⟨e, .calling, none⟩ ⟨e, .opening, some .auto⟩
  | aFinish (e : ExplState) : LockStep ⟨e, .opening, some .auto⟩ ⟨e, .sleeping, none⟩

/-- The initial configuration: both threads idle, lock free. -/
def lockInit : LockConfig := ⟨.idle, .sleeping, none⟩

/-- Configurations reachable from the initial one by interleaving. -/
inductive LockReachable : LockConfig → Prop where
  | init : LockReachable lockInit
  | step {c c' : LockConfig} :
      LockReachable c → LockStep c c' → LockReachable c'

/-- The lock invariant: a thread in its port-opening section (or briefly
holding the trylock) owns the lock. -/
structure LockInv (c : LockConfig) : Prop where
  eOwns : c.e = ExplState.opening → c.lock = some LockOwner.expl
  aHeld : c.a = AutoState.checked → c.lock = some LockOwner.auto
  aOwns : c.a = AutoState.opening → c.lock = some LockOwner.auto

theorem lockInv_step {c c' : LockConfig} (hc : LockInv c) (hs : LockStep c c') :
    LockInv c' := by
  obtain ⟨he0, ha1, ha2⟩ := hc
  cases hs with
  | eAcquire a =>
    exact ⟨fun _ => rfl, fun ha => absurd (ha1 ha) (by simp),
      fun ha => absurd (ha2 ha) (by simp)⟩
  | eRelease a =>
    exact ⟨fun he => (nomatch he), fun ha => absurd (ha1 ha) (by simp),
      fun ha => absurd (ha2 ha) (by simp)⟩
  | aWake e l => exact ⟨he0, fun ha => (nomatch ha), fun ha => nomatch ha⟩
  | aTrySkip e l h => exact ⟨he0, fun ha => (nomatch ha), fun ha => nomatch ha⟩
  | aTryAcquire e =>
    exact ⟨fun he => absurd (he0 he) (by simp), fun _ => rfl,
      fun ha => nomatch ha⟩
  | aPreRelease e =>
    exact ⟨fun he => absurd (he0 he) (by simp), fun ha => (nomatch ha),
      fun ha => nomatch ha⟩
  | aConnectAcquire e =>
    exact ⟨fun he => absurd (he0 he) (by simp), fun ha => (nomatch ha),
      fun _ => rfl⟩
  | aFinish e =>
    exact ⟨fun he => absurd (he0 he) (by simp), fun ha => (nomatch ha),
      fun ha => nomatch ha⟩

/-- C9: in every reachable interleaving of an explicit `connect()` and an
auto-reconnect cycle, the two are never simultaneously inside their
port-opening sections: the worker's non-blocking trylock skips its cycle
when the lock is held, and all port opening happens under the connection
lock, so at most one connection attempt is opening ports at any time. -/
theorem c9_connect_mutual_exclusion (c : LockConfig) (h : LockReachable c) :
    ¬(c.e = ExplState.opening ∧ c.a = AutoState.opening) := by
  have hinv : LockInv c := by
    induction h with
    | init =>
      exact ⟨fun he => (nomatch he), fun ha => (nomatch ha), fun ha => nomatch ha⟩
    | step hr hs ih => exact lockInv_step ih hs
  rintro ⟨he, ha⟩
  have h1 := hinv.eOwns he
  have h2 := hinv.aOwns ha
  rw [h1] at h2
  exact absurd h2 (by simp)

/-- Concrete instance of C9: in the reachable configuration where the
explicit `connect()` holds the lock and is opening ports, the auto-reconnect
worker is not also opening ports. -/
theorem c9_connect_mutual_exclusion_witness :
    ¬((⟨.opening, .sleeping, some .expl⟩ : LockConfig).e = ExplState.opening
      ∧ (⟨.opening, .sleeping, some .expl⟩ : LockConfig).a = AutoState.opening) :=
  c9_connect_mutual_exclusion ⟨.opening, .sleeping, some .expl⟩
    (LockReachable.step LockReachable.init (LockStep.eAcquire .sleeping))

/-! ### Connection with retries (claim C4) -/

/-- An apostrophe character, used inside literal engine messages. -/
def apos : String := String.singleton (Char.ofNat 39)

/-- How one `_open_with_timeout` call behaves: success, an `OSError` whose
text mentions busy/denied, another `OSError`, or any other exception
(including the open timeout). -/
inductive OpenOutcome where
  | ok
  | osBusy (msg : String)
  | osOther (msg : String)
  | exc (msg : String)
  deriving Repr, DecidableEq

/-- The environment one `connect` attempt runs in: what
`find_launchpad_ports` returns and how each open call behaves. `none`
stands for a Python falsy port id (absent or empty). -/
structure AttemptEnv where
  found_input : Option String
  found_output : Option String
  open_input : OpenOutcome
  open_output : OpenOutcome
  deriving Repr, DecidableEq

/-- The port-handle fields of the session controller. -/
structure Ports where
  input_port : Option String
  output_port : Option String
  last_input_port : Option String
  last_output_port : Option String
  deriving Repr, DecidableEq

/-- `disconnect()` restricted to the port fields: closes and clears both
handles. -/
def Ports.disconnect (st : Ports) : Ports :=
  { st with input_port := none, output_port := none }

/-- The dict `connect` returns. Keys absent on one of the code paths are
embedded as `Option`s. -/
structure ConnectResult where
  success : Bool
  message : String
  attempt : Option Nat
  input_connected : Option Bool
  output_connected : Option Bool
  error : Option String
  errors : List String
  deriving Repr, DecidableEq

/-- The error message `connect` appends for a failed open, matching its
`OSError` busy/denied classification. -/
def openErrMsg : OpenOutcome → String
  | .ok => ""
  | .osBusy msg => "MIDI port is busy or locked by another application: " ++ msg
  | .osOther msg => "OSError opening MIDI port: " ++ msg
  | .exc msg => msg

/-- The tail of a successful attempt: device setup, the one-sided warnings,
and the success dict; the `else` arm is the `No MIDI ports available`
retry. -/
def connectFinish (attempt : Nat) (errors : List String) (st3 : Ports)
    (messages : List String) :
    Except (List String × Ports) (ConnectResult × Ports) :=
  if st3.input_port.isSome ∨ st3.output_port.isSome then
    let messages := messages
      ++ (if st3.input_port = none then
        ["(No input - pad presses won" ++ apos ++ "t be detected)"] else [])
      ++ (if st3.output_port = none then
        ["(No output - LED feedback unavailable)"] else [])
    .ok ({ success := true
           message := "Connected: " ++ String.intercalate ", " messages
           attempt := some attempt
           input_connected := some st3.input_port.isSome
           output_connected := some st3.output_port.isSome
           error := none, errors := errors }, st3)
  else
    .error (errors ++ ["No MIDI ports available for connection."], st3)

/-- The output half of one attempt: opens the detected output port if any;
an exception closes both ports and retries. -/
def connectOpenOutput (attempt : Nat) (errors : List String)
    (env : AttemptEnv) (detected_output : Option String) (st2 : Ports)
    (messages : List String) :
    Except (List String × Ports) (ConnectResult × Ports) :=
  match detected_output with
  | some outp =>
    match env.open_output with
    | .ok =>
      connectFinish attempt errors { st2 with output_port := some outp }
        (messages ++ ["Output: " ++ outp])
    | e =>
      .error (errors ++ [openErrMsg e],
        { st2 with input_port := none, output_port := none })
  | none => connectFinish attempt errors st2 messages

/-- The decision core of one `connect` attempt, after the ids to use and the
detection fallback have been resolved into `detected_input` /
`detected_output` and the last-used ids recorded in `st1`. -/
def attemptCore (attempt : Nat) (env : AttemptEnv) (errors : List String)
    (detected_input detected_output : Option String) (st1 : Ports) :
    Except (List String × Ports) (ConnectResult × Ports) :=
  if detected_input = none ∧ detected_output = none then
    .error (errors
      ++ ["No Launchpad detected. Please connect your device and click Refresh."],
      st1)
  else
    match detected_input with
    | some inp =>
      match env.open_input with
      | .ok =>
        connectOpenOutput attempt errors env detected_output
          { st1 with input_port := some inp } (["Input: " ++ inp])
      | e =>
        .error (errors ++ [openErrMsg e],
          { st1 with input_port := none, output_port := none })
    | none => connectOpenOutput attempt errors env detected_output st1 []

/-- One attempt of the `connect` retry loop (archived full engine):
`Except.ok` carries the success result and final ports, `Except.error` the
accumulated error list and the ports carried into the next attempt. -/
def attemptStep (input_port output_port : Option String) (attempt : Nat)
    (env : AttemptEnv) (st : Ports) (errors : List String) :
    Except (List String × Ports) (ConnectResult × Ports) :=
  let st0 := if st.input_port.isSome ∨ st.output_port.isSome
    then st.disconnect else st
  let detected_input :=
    if input_port.isSome ∧ output_port.isSome then input_port
    else input_port.orElse (fun _ => env.found_input)
  let detected_output :=
    if input_port.isSome ∧ output_port.isSome then output_port
    else output_port.orElse (fun _ => env.found_output)
  attemptCore attempt env errors detected_input detected_output
    { st0 with
      last_input_port := detected_input.orElse (fun _ => st0.last_input_port)
      last_output_port := detected_output.orElse (fun _ => st0.last_output_port) }

/-- The retry loop of `connect`, one environment per attempt; sleeps touch
no state and are elided. -/
def connectLoop (input_port output_port : Option String) :
    Nat → List AttemptEnv → Ports → List String → ConnectResult × Ports
  | _, [], st, errors =>
    ({ success := false, message := "Failed to connect after retries"
       attempt := none, input_connected := none, output_connected := none
       error := some ((errors.getLast?).getD "Unknown MIDI error")
       errors := errors }, st)
  | attempt, env :: rest, st, errors =>
    match attemptStep input_port output_port attempt env st errors with
    | .ok r => r
    | .error (errors', st') =>
      connectLoop input_port output_port (attempt + 1) rest st' errors'

/-- The method `connect(input_port, output_port, retries, retry_delay)`:
the number of retries is the length of the environment list. -/
def connect (input_port output_port : Option String) (envs : List AttemptEnv)
    (st : Ports) : ConnectResult × Ports :=
  connectLoop input_port output_port 1 envs st []

theorem connectFinish_ok_spec (attempt : Nat) (errors : List String)
    (st3 : Ports) (messages : List String) (res : ConnectResult) (st' : Ports)
    (h : connectFinish attempt errors st3 messages = .ok (res, st')) :
    res.success = true
    ∧ res.input_connected = some st'.input_port.isSome
    ∧ res.output_connected = some st'.output_port.isSome
    ∧ (st'.input_port.isSome = true ∨ st'.output_port.isSome = true)
    ∧ (∃ m, res.message = "Connected: " ++ m) := by
  unfold connectFinish at h
  split at h
  · next hor =>
    obtain ⟨rfl, rfl⟩ := by
      simpa using h
    refine ⟨rfl, rfl, rfl, ?_, ⟨_, rfl⟩⟩
    rcases hor with h1 | h1
    · exact Or.inl h1
    · exact Or.inr h1
  · simp at h

theorem connectFinish_error_spec (attempt : Nat) (errors : List String)
    (st3 : Ports) (messages : List String) (errors' : List String)
    (st' : Ports)
    (h : connectFinish attempt errors st3 messages = .error (errors', st')) :
    errors'.length = errors.length + 1
    ∧ st'.input_port = none ∧ st'.output_port = none := by
  unfold connectFinish at h
  split at h
  · simp at h
  · next hor =>
    obtain ⟨rfl, rfl⟩ := by
      simpa using h
    push_neg at hor
    refine ⟨by simp, ?_, ?_⟩
    · simpa using Option.not_isSome_iff_eq_none.mp (by simp [hor.1])
    · simpa using Option.not_isSome_iff_eq_none.mp (by simp [hor.2])

theorem connectOpenOutput_spec (attempt : Nat) (errors : List String)
    (env : AttemptEnv) (detected_output : Option String) (st2 : Ports)
    (messages : List String) :
    (∀ res st', connectOpenOutput attempt errors env detected_output st2
        messages = .ok (res, st') →
      res.success = true
      ∧ res.input_connected = some st'.input_port.isSome
      ∧ res.output_connected = some st'.output_port.isSome
      ∧ (st'.input_port.isSome = true ∨ st'.output_port.isSome = true)
      ∧ (∃ m, res.message = "Connected: " ++ m))
    ∧ (∀ errors' st', connectOpenOutput attempt errors env detected_output st2
        messages = .error (errors', st') →
      errors'.length = errors.length + 1
      ∧ st'.input_port = none ∧ st'.output_port = none) := by
  constructor
  · intro res st' h
    unfold connectOpenOutput at h
    split at h
    · split at h
      · exact connectFinish_ok_spec _ _ _ _ _ _ h
      · simp at h
    · exact connectFinish_ok_spec _ _ _ _ _ _ h
  · intro errors' st' h
    unfold connectOpenOutput at h
    split at h
    · split at h
      · exact connectFinish_error_spec _ _ _ _ _ _ h
      · obtain ⟨rfl, rfl⟩ := by
          simpa using h
        exact ⟨by simp, rfl, rfl⟩
    · exact connectFinish_error_spec _ _ _ _ _ _ h

theorem disconnected_start (st : Ports) :
    ((if st.input_port.isSome ∨ st.output_port.isSome
      then st.disconnect else st).input_port = none)
    ∧ ((if st.input_port.isSome ∨ st.output_port.isSome
      then st.disconnect else st).output_port = none) := by
  split
  · exact ⟨rfl, rfl⟩
  · next hn =>
    push_neg at hn
    exact ⟨Option.not_isSome_iff_eq_none.mp (by simp [hn.1]),
      Option.not_isSome_iff_eq_none.mp (by simp [hn.2])⟩

theorem attemptCore_spec (attempt : Nat) (env : AttemptEnv)
    (errors : List String) (detected_input detected_output : Option String)
    (st1 : Ports) (hin : st1.input_port = none) (hout : st1.output_port = none) :
    (∀ res st', attemptCore attempt env errors detected_input detected_output
        st1 = .ok (res, st') →
      res.success = true
      ∧ res.input_connected = some st'.input_port.isSome
      ∧ res.output_connected = some st'.output_port.isSome
      ∧ (st'.input_port.isSome = true ∨ st'.output_port.isSome = true)
      ∧ (∃ m, res.message = "Connected: " ++ m))
    ∧ (∀ errors' st', attemptCore attempt env errors detected_input
        detected_output st1 = .error (errors', st') →
      errors'.length = errors.length + 1
      ∧ st'.input_port = none ∧ st'.output_port = none) := by
  constructor
  · intro res st' h
    unfold attemptCore at h
    split at h
    · exact absurd h (by simp)
    · split at h
      · cases henv : env.open_input with
        | ok =>
          rw [henv] at h
          exact (connectOpenOutput_spec _ _ _ _ _ _).1 _ _ h
        | osBusy msg =>
          rw [henv] at h
          exact absurd h (by simp)
        | osOther msg =>
          rw [henv] at h
          exact absurd h (by simp)
        | exc msg =>
          rw [henv] at h
          exact absurd h (by simp)
      · exact (connectOpenOutput_spec _ _ _ _ _ _).1 _ _ h
  · intro errors' st' h
    unfold attemptCore at h
    split at h
    · obtain ⟨rfl, rfl⟩ := by
        simpa using h
      exact ⟨by simp, hin, hout⟩
    · split at h
      · cases henv : env.open_input with
        | ok =>
          rw [henv] at h
          exact (connectOpenOutput_spec _ _ _ _ _ _).2 _ _ h
        | osBusy msg =>
          rw [henv] at h
          obtain ⟨rfl, rfl⟩ := by
            simpa using h
          exact ⟨by simp, rfl, rfl⟩
        | osOther msg =>
          rw [henv] at h
          obtain ⟨rfl, rfl⟩ := by
            simpa using h
          exact ⟨by simp, rfl, rfl⟩
        | exc msg =>
          rw [henv] at h
          obtain ⟨rfl, rfl⟩ := by
            simpa using h
          exact ⟨by simp, rfl, rfl⟩
      · exact (connectOpenOutput_spec _ _ _ _ _ _).2 _ _ h

theorem attemptStep_spec (input_port output_port : Option String)
    (attempt : Nat) (env : AttemptEnv) (st : Ports) (errors : List String) :
    (∀ res st', attemptStep input_port output_port attempt env st errors
        = .ok (res, st') →
      res.success = true
      ∧ res.input_connected = some st'.input_port.isSome
      ∧ res.output_connected = some st'.output_port.isSome
      ∧ (st'.input_port.isSome = true ∨ st'.output_port.isSome = true)
      ∧ (∃ m, res.message = "Connected: " ++ m))
    ∧ (∀ errors' st', attemptStep input_port output_port attempt env st errors
        = .error (errors', st') →
      errors'.length = errors.length + 1
      ∧ st'.input_port = none ∧ st'.output_port = none) :=
  attemptCore_spec attempt env errors _ _ _
    ((disconnected_start st).1) ((disconnected_start st).2)

theorem connectLoop_spec (input_port output_port : Option String)
    (envs : List AttemptEnv) (attempt : Nat) (st : Ports)
    (errors : List String) :
    ((connectLoop input_port output_port attempt envs st errors).1.success = true →
      (connectLoop input_port output_port attempt envs st errors).1.input_connected
        = some (connectLoop input_port output_port attempt envs st errors).2.input_port.isSome
      ∧ (connectLoop input_port output_port attempt envs st errors).1.output_connected
        = some (connectLoop input_port output_port attempt envs st errors).2.output_port.isSome
      ∧ ((connectLoop input_port output_port attempt envs st errors).2.input_port.isSome = true
        ∨ (connectLoop input_port output_port attempt envs st errors).2.output_port.isSome = true)
      ∧ ∃ m, (connectLoop input_port output_port attempt envs st errors).1.message
          = "Connected: " ++ m)
    ∧ ((connectLoop input_port output_port attempt envs st errors).1.success = false →
      (connectLoop input_port output_port attempt envs st errors).1.errors.length
        = errors.length + envs.length
      ∧ (envs = [] →
        (connectLoop input_port output_port attempt envs st errors).2 = st)
      ∧ (envs ≠ [] →
        (connectLoop input_port output_port attempt envs st errors).2.input_port = none
        ∧ (connectLoop input_port output_port attempt envs st errors).2.output_port = none)) := by
  induction envs generalizing attempt st errors with
  | nil =>
    constructor
    · intro hs
      exact absurd hs (by simp [connectLoop])
    · intro _
      exact ⟨by simp [connectLoop], fun _ => rfl, fun hne => absurd rfl hne⟩
  | cons env rest ih =>
    rcases hstep : attemptStep input_port output_port attempt env st errors
      with ⟨errors2, st2⟩ | ⟨res, st2⟩
    · have hcur : connectLoop input_port output_port attempt (env :: rest) st errors
          = connectLoop input_port output_port (attempt + 1) rest st2 errors2 := by
        show (match attemptStep input_port output_port attempt env st errors with
          | .ok r => r
          | .error (errors', st') =>
            connectLoop input_port output_port (attempt + 1) rest st' errors') = _
        rw [hstep]
      have hstepspec := (attemptStep_spec input_port output_port attempt env
        st errors).2 errors2 st2 hstep
      constructor
      · intro hs
        rw [hcur] at hs ⊢
        exact (ih (attempt + 1) st2 errors2).1 hs
      · intro hf
        rw [hcur] at hf ⊢
        obtain ⟨hlen, hemp, hnonemp⟩ := (ih (attempt + 1) st2 errors2).2 hf
        refine ⟨?_, fun habs => by simp at habs, fun _ => ?_⟩
        · rw [hlen, hstepspec.1]
          simp [Nat.add_assoc, Nat.add_comm 1 rest.length]
        · by_cases hrest : rest = []
          · rw [hemp hrest]
            exact ⟨hstepspec.2.1, hstepspec.2.2⟩
          · exact hnonemp hrest
    · have hcur : connectLoop input_port output_port attempt (env :: rest) st errors
          = (res, st2) := by
        show (match attemptStep input_port output_port attempt env st errors with
          | .ok r => r
          | .error (errors', st') =>
            connectLoop input_port output_port (attempt + 1) rest st' errors') = _
        rw [hstep]
      have hspec := (attemptStep_spec input_port output_port attempt env
        st errors).1 res st2 hstep
      constructor
      · intro hs
        rw [hcur]
        exact ⟨hspec.2.1, hspec.2.2.1, hspec.2.2.2.1, hspec.2.2.2.2⟩
      · intro hf
        rw [hcur] at hf
        simp [hspec.1] at hf

/-- C4: whenever `connect` succeeds — including when only one of the two
ports could be opened — the result carries `input_connected` and
`output_connected` flags matching exactly which side is open (so a missing
side is flagged `false`), at least one side is open, and the message starts
with `Connected:`; `connect` returns `success = false` only when no attempt
opened any port, in which case both handles are closed and the errors list
accumulates one message per failed attempt. -/
theorem c4_connect_partial_success (input_port output_port : Option String)
    (envs : List AttemptEnv) (st : Ports) :
    ((connect input_port output_port envs st).1.success = true →
      (connect input_port output_port envs st).1.input_connected
        = some (connect input_port output_port envs st).2.input_port.isSome
      ∧ (connect input_port output_port envs st).1.output_connected
        = some (connect input_port output_port envs st).2.output_port.isSome
      ∧ ((connect input_port output_port envs st).2.input_port.isSome = true
        ∨ (connect input_port output_port envs st).2.output_port.isSome = true)
      ∧ ∃ m, (connect input_port output_port envs st).1.message
          = "Connected: " ++ m)
    ∧ ((connect input_port output_port envs st).1.success = false →
      (connect input_port output_port envs st).1.errors.length = envs.length
      ∧ (envs ≠ [] →
        (connect input_port output_port envs st).2.input_port = none
        ∧ (connect input_port output_port envs st).2.output_port = none)) := by
  have h := connectLoop_spec input_port output_port envs 1 st []
  exact ⟨h.1, fun hf => ⟨by simpa using (h.2 hf).1, (h.2 hf).2.2⟩⟩

/-- Concrete instance of C4: an attempt that finds only an input port still
succeeds with `input_connected = true, output_connected = false`, and an
attempt that finds only an output port succeeds with the flags reversed. -/
theorem c4_connect_partial_success_witness :
    (connect none none [⟨some "LP In", none, .ok, .ok⟩]
      ⟨none, none, none, none⟩).1.success = true
    ∧ (connect none none [⟨some "LP In", none, .ok, .ok⟩]
      ⟨none, none, none, none⟩).1.input_connected = some true
    ∧ (connect none none [⟨some "LP In", none, .ok, .ok⟩]
      ⟨none, none, none, none⟩).1.output_connected = some false
    ∧ (connect none none [⟨none, some "LP Out", .ok, .ok⟩]
      ⟨none, none, none, none⟩).1.success = true
    ∧ (connect none none [⟨none, some "LP Out", .ok, .ok⟩]
      ⟨none, none, none, none⟩).1.input_connected = some false
    ∧ (connect none none [⟨none, some "LP Out", .ok, .ok⟩]
      ⟨none, none, none, none⟩).1.output_connected = some true := by
  have h1 := (c4_connect_partial_success none none
    [⟨some "LP In", none, .ok, .ok⟩] ⟨none, none, none, none⟩).1 rfl
  have h2 := (c4_connect_partial_success none none
    [⟨none, some "LP Out", .ok, .ok⟩] ⟨none, none, none, none⟩).1 rfl
  refine ⟨rfl, ?_, ?_, rfl, ?_, ?_⟩
  · rw [h1.1]
    decide
  · rw [h1.2.1]
    decide
  · rw [h2.1]
    decide
  · rw [h2.2.1]
    decide

/-! ### Profile serialisation (claims C10 and C5) -/

/-- A pad-mapping dict as it appears in serialized profiles or validator
output: every field the `from_dict` reader consults, with `none` for an
absent (or `null`) key. -/
structure MappingData where
  note : Option Int
  key_combo : Option String
  color : Option String
  label : Option String
  enabled : Option Bool
  action : Option String
  target_layer : Option String
  repeat_enabled : Option Bool
  repeat_delay : Option Rat
  repeat_interval : Option Rat
  macro_steps : Option (List MacroStepData)
  velocity_mappings : Option (List (String × String))
  long_press_enabled : Option Bool
  long_press_action : Option String
  long_press_threshold : Option Rat
  deriving Repr, DecidableEq

/-- The method `PadMapping.to_dict` (`dataclasses.asdict`): every field
present. -/
def PadMapping.to_dict (m : PadMapping) : MappingData :=
  { note := some m.note, key_combo := some m.key_combo
    color := some m.color, label := some m.label
    enabled := some m.enabled, action := some m.action
    target_layer := m.target_layer
    repeat_enabled := some m.repeat_enabled
    repeat_delay := some m.repeat_delay
    repeat_interval := some m.repeat_interval
    macro_steps := m.macro_steps
    velocity_mappings := m.velocity_mappings
    long_press_enabled := some m.long_press_enabled
    long_press_action := some m.long_press_action
    long_press_threshold := some m.long_press_threshold }

/-- The classmethod `PadMapping.from_dict`: `data['note']`,
`data['key_combo']` and `data['color']` raise `KeyError` when absent
(embedded as `none`); every other field falls back to its default. -/
def PadMapping.from_dict (d : MappingData) : Option PadMapping := do
  let note ← d.note
  let key_combo ← d.key_combo
  let color ← d.color
  some { note := note, key_combo := key_combo, color := color
         label := d.label.getD "", enabled := d.enabled.getD true
         action := d.action.getD "key", target_layer := d.target_layer
         repeat_enabled := d.repeat_enabled.getD false
         repeat_delay := d.repeat_delay.getD (1/2)
         repeat_interval := d.repeat_interval.getD (1/20)
         macro_steps := d.macro_steps
         velocity_mappings := d.velocity_mappings
         long_press_enabled := d.long_press_enabled.getD false
         long_press_action := d.long_press_action.getD ""
         long_press_threshold := d.long_press_threshold.getD (1/2) }

/-- A profile dict: the fields `Profile.from_dict` consults. -/
structure ProfileData where
  name : Option String
  description : Option String
  base_layer : Option String
  layers : Option (List (String × List (String × MappingData)))
  mappings : Option (List (String × MappingData))
  deriving Repr, DecidableEq

/-- The method `Profile.to_dict`: each layer dict keyed by `str(note)`. -/
def Profile.to_dict (p : Profile) : ProfileData :=
  { name := some p.name, description := some p.description
    base_layer := some p.base_layer
    layers := some (p.layers.map (fun e =>
      (e.1, e.2.map (fun nm => (toString nm.1, nm.2.to_dict)))))
    mappings := none }

/-- One iteration of the `Profile.from_dict` loops: inject the dict key as
the note when the mapping dict lacks one (`int(note_str)` may raise), read
the mapping, and `add_mapping` it. -/
def fromDictAdd (layer : Option String) (p : Profile)
    (entry : String × MappingData) : Option Profile := do
  let md ← match entry.2.note with
    | none =>
      match pyInt entry.1.data with
      | none => none
      | some n => some { entry.2 with note := some n }
    | some _ => some entry.2
  let m ← PadMapping.from_dict md
  some (p.add_mapping m layer)

/-- The classmethod `Profile.from_dict`: builds a fresh profile, then adds
every mapping of every layer in stored order (or of the legacy flat
`mappings` dict when `layers` is absent or empty — Python dict truthiness),
finally ensuring the base layer exists. `none` embeds the uncaught
exceptions malformed input would raise. -/
def Profile.from_dict (d : ProfileData) : Option Profile := do
  let profile := Profile.mkNew (d.name.getD "Imported") (d.base_layer.getD "Base")
  let profile := { profile with description := d.description.getD "" }
  let layersVal := d.layers.getD []
  let profile ←
    if layersVal.isEmpty then
      (d.mappings.getD []).foldlM (fromDictAdd none) profile
    else
      layersVal.foldlM (fun acc layer =>
        layer.2.foldlM (fromDictAdd (some layer.1)) acc) profile
  some (profile.ensure_layer profile.base_layer)

/-- Re-adding every mapping of one layer, in stored order. -/
def addLayerEntries (ln : String) (a : Profile)
    (d : List (Int × PadMapping)) : Profile :=
  d.foldl (fun a2 nm => a2.add_mapping nm.2 (some ln)) a

/-- Re-adding every mapping of every layer of `L`, in stored order, to the
accumulator profile — the effect of the main `from_dict` loop once every
per-mapping read is known to succeed. -/
def rebuildLayers (a : Profile)
    (L : List (String × List (Int × PadMapping))) : Profile :=
  L.foldl (fun acc layer => addLayerEntries layer.1 acc layer.2) a

/-- A profile that keys every mapping by its note but has an empty non-base
layer "Foo". -/
def emptyLayerProfile : Profile :=
  { name := "P", description := "", base_layer := "Base"
    layers := [("Base", [(36, mkMapping 36 "a")]), ("Foo", [])] }

/-- C10 counterexample: `emptyLayerProfile` satisfies the claim's hypothesis
(each layer keys every mapping by its note), its layer set contains "Foo",
yet `Profile.from_dict (Profile.to_dict p)` yields a profile whose layer
set does not contain "Foo": the round trip silently drops empty non-base
layers, so the layer-name sets differ. -/
theorem c10_round_trip_counterexample :
    (∀ layer ∈ emptyLayerProfile.layers, ∀ e ∈ layer.2, e.2.note = e.1)
    ∧ (emptyLayerProfile.layers.lookup "Foo").isSome = true
    ∧ (Profile.from_dict (Profile.to_dict emptyLayerProfile)).map
        (fun q => (q.layers.lookup "Foo").isSome) = some false := by
  refine ⟨by decide, by decide, by decide⟩

theorem lookup_eq_none_of_not_mem {α β : Type} [BEq α] [LawfulBEq α]
    (l : List (α × β)) (k : α) (h : k ∉ l.map Prod.fst) : l.lookup k = none := by
  induction l with
  | nil => rfl
  | cons p rest ih =>
    obtain ⟨k', v'⟩ := p
    simp only [List.map_cons, List.mem_cons] at h
    push_neg at h
    have hb : (k == k') = false := beq_eq_false_iff_ne.mpr h.1
    simp only [List.lookup, hb]
    exact ih h.2

theorem lookup_mem {α β : Type} [BEq α] [LawfulBEq α]
    (l : List (α × β)) (k : α) (v : β) (h : l.lookup k = some v) :
    (k, v) ∈ l := by
  induction l with
  | nil => simp [List.lookup] at h
  | cons p rest ih =>
    obtain ⟨k', v'⟩ := p
    by_cases hk : k = k'
    · subst hk
      simp only [List.lookup, beq_self_eq_true] at h
      obtain rfl := by simpa using h
      exact List.mem_cons_self _ _
    · have hb : (k == k') = false := beq_eq_false_iff_ne.mpr hk
      simp only [List.lookup, hb] at h
      exact List.mem_cons_of_mem _ (ih h)

theorem lookup_append_of_none {α β : Type} [BEq α]
    (l l' : List (α × β)) (k : α) (h : l.lookup k = none) :
    (l ++ l').lookup k = l'.lookup k := by
  induction l with
  | nil => rfl
  | cons p rest ih =>
    obtain ⟨k', v'⟩ := p
    simp only [List.lookup] at h ⊢
    cases hk : (k == k') with
    | true => simp [hk] at h
    | false =>
      rw [hk] at h
      simp only [List.cons_append, List.lookup, hk]
      exact ih h

theorem lookup_append_of_some {α β : Type} [BEq α]
    (l l' : List (α × β)) (k : α) (v : β) (h : l.lookup k = some v) :
    (l ++ l').lookup k = some v := by
  induction l with
  | nil => simp [List.lookup] at h
  | cons p rest ih =>
    obtain ⟨k0, v0⟩ := p
    simp only [List.lookup] at h
    cases hk : (k == k0) with
    | true =>
      rw [hk] at h
      simp only [List.cons_append, List.lookup, hk]
      exact h
    | false =>
      rw [hk] at h
      simp only [List.cons_append, List.lookup, hk]
      exact ih h

theorem lookup_updateFirst_other {α β : Type} [BEq α] [LawfulBEq α]
    (l : List (α × β)) (k k' : α) (f : β → β) (hne : k' ≠ k) :
    (updateFirst l k f).lookup k' = l.lookup k' := by
  induction l with
  | nil => rfl
  | cons p rest ih =>
    obtain ⟨k0, v0⟩ := p
    by_cases hk : k0 == k
    · have : k0 = k := eq_of_beq hk
      subst this
      have hb : (k' == k0) = false := beq_eq_false_iff_ne.mpr hne
      simp [updateFirst, List.lookup, hb]
    · simp only [updateFirst, hk, Bool.false_eq_true, if_false, List.lookup]
      cases hk' : (k' == k0) with
      | true => rfl
      | false => exact ih

theorem lookup_updateFirst_self {α β : Type} [BEq α] [LawfulBEq α]
    (l : List (α × β)) (k : α) (f : β → β) (v : β) (h : l.lookup k = some v) :
    (updateFirst l k f).lookup k = some (f v) := by
  induction l with
  | nil => simp [List.lookup] at h
  | cons p rest ih =>
    obtain ⟨k0, v0⟩ := p
    by_cases hk : k = k0
    · subst hk
      simp only [List.lookup, beq_self_eq_true] at h
      obtain rfl := by simpa using h
      simp [updateFirst, List.lookup]
    · have hb : (k == k0) = false := beq_eq_false_iff_ne.mpr hk
      have hb' : (k0 == k) = false := beq_eq_false_iff_ne.mpr (Ne.symm hk)
      simp only [List.lookup, hb] at h
      simp only [updateFirst, hb', Bool.false_eq_true, if_false, List.lookup, hb]
      exact ih h

theorem dictInsert_of_not_mem {α β : Type} [BEq α] [LawfulBEq α]
    (l : List (α × β)) (k : α) (v : β) (h : k ∉ l.map Prod.fst) :
    dictInsert l k v = l ++ [(k, v)] := by
  induction l with
  | nil => rfl
  | cons p rest ih =>
    obtain ⟨k', v'⟩ := p
    simp only [List.map_cons, List.mem_cons] at h
    push_neg at h
    have hb : (k' == k) = false := beq_eq_false_iff_ne.mpr (Ne.symm h.1)
    simp only [dictInsert, hb, Bool.false_eq_true, if_false, List.cons_append,
      List.cons.injEq, true_and]
    exact ih h.2

theorem foldl_add_entries (d acc : List (Int × PadMapping))
    (hkeys : ∀ e ∈ d, e.2.note = e.1)
    (hnodup : (d.map Prod.fst).Nodup)
    (hdisj : ∀ k ∈ d.map Prod.fst, k ∉ acc.map Prod.fst) :
    d.foldl (fun dd nm => dictInsert dd nm.2.note nm.2) acc = acc ++ d := by
  induction d generalizing acc with
  | nil => simp
  | cons nm d' ih =>
    obtain ⟨n, m⟩ := nm
    have hnote : m.note = n := hkeys (n, m) (by simp)
    simp only [List.map_cons, List.nodup_cons] at hnodup
    have hstep : dictInsert acc m.note m = acc ++ [(n, m)] := by
      rw [hnote]
      exact dictInsert_of_not_mem acc n m (hdisj n (by simp))
    simp only [List.foldl_cons, hstep]
    rw [ih (acc ++ [(n, m)]) (fun e he => hkeys e (by simp [he])) hnodup.2]
    · simp
    · intro k hk
      simp only [List.map_append, List.mem_append]
      push_neg
      refine ⟨hdisj k (by simp [hk]), ?_⟩
      simp only [List.map_cons, List.map_nil, List.mem_singleton]
      intro hkn
      exact hnodup.1 (hkn ▸ hk)

theorem add_mapping_meta (p : Profile) (m : PadMapping) (l : Option String) :
    (p.add_mapping m l).name = p.name
    ∧ (p.add_mapping m l).description = p.description
    ∧ (p.add_mapping m l).base_layer = p.base_layer := by
  unfold Profile.add_mapping
  dsimp only
  split <;> exact ⟨rfl, rfl, rfl⟩

theorem lookup_add_mapping_self (p : Profile) (m : PadMapping) (ln : String)
    (hln : ln ≠ "") :
    ((p.add_mapping m (some ln)).layers.lookup ln)
      = some (dictInsert ((p.layers.lookup ln).getD []) m.note m) := by
  have hname : p.layerName (some ln) = ln := by
    simp [Profile.layerName, hln]
  unfold Profile.add_mapping
  dsimp only
  rw [hname]
  split
  · next hpresent =>
    obtain ⟨d, hd⟩ := Option.isSome_iff_exists.mp hpresent
    dsimp only
    rw [lookup_updateFirst_self p.layers ln _ d hd, hd]
    rfl
  · next habsent =>
    have hnone : p.layers.lookup ln = none :=
      Option.not_isSome_iff_eq_none.mp (by simpa using habsent)
    dsimp only
    rw [lookup_append_of_none _ _ _ hnone, hnone]
    simp [List.lookup, dictInsert]

theorem lookup_add_mapping_other (p : Profile) (m : PadMapping)
    (ln ln' : String) (hln : ln ≠ "") (hne : ln' ≠ ln) :
    ((p.add_mapping m (some ln)).layers.lookup ln') = p.layers.lookup ln' := by
  have hname : p.layerName (some ln) = ln := by
    simp [Profile.layerName, hln]
  unfold Profile.add_mapping
  dsimp only
  rw [hname]
  split
  · dsimp only
    exact lookup_updateFirst_other p.layers ln ln' _ hne
  · dsimp only
    cases hl : p.layers.lookup ln' with
    | none =>
      rw [lookup_append_of_none _ _ _ hl]
      have hb : (ln' == ln) = false := beq_eq_false_iff_ne.mpr hne
      simp [List.lookup, hb]
    | some d =>
      exact lookup_append_of_some _ _ _ _ hl

theorem addLayerEntries_meta (ln : String) (d : List (Int × PadMapping)) :
    ∀ a : Profile,
    (addLayerEntries ln a d).name = a.name
    ∧ (addLayerEntries ln a d).description = a.description
    ∧ (addLayerEntries ln a d).base_layer = a.base_layer := by
  induction d with
  | nil => exact fun a => ⟨rfl, rfl, rfl⟩
  | cons nm d' ih =>
    intro a
    have h1 := add_mapping_meta a nm.2 (some ln)
    have h2 := ih (a.add_mapping nm.2 (some ln))
    exact ⟨h2.1.trans h1.1, h2.2.1.trans h1.2.1, h2.2.2.trans h1.2.2⟩

theorem addLayerEntries_lookup_other (ln ln' : String)
    (d : List (Int × PadMapping)) (hln : ln ≠ "") (hne : ln' ≠ ln) :
    ∀ a : Profile,
    (addLayerEntries ln a d).layers.lookup ln' = a.layers.lookup ln' := by
  induction d with
  | nil => exact fun a => rfl
  | cons nm d' ih =>
    intro a
    exact (ih (a.add_mapping nm.2 (some ln))).trans
      (lookup_add_mapping_other a nm.2 ln ln' hln hne)

theorem addLayerEntries_lookup_self (ln : String)
    (d : List (Int × PadMapping)) (hln : ln ≠ "") :
    ∀ a : Profile, d ≠ [] →
    (addLayerEntries ln a d).layers.lookup ln
      = some (d.foldl (fun dd nm => dictInsert dd nm.2.note nm.2)
          ((a.layers.lookup ln).getD [])) := by
  induction d with
  | nil => exact fun a hd => absurd rfl hd
  | cons nm d' ih =>
    intro a _
    by_cases hd' : d' = []
    · subst hd'
      show (a.add_mapping nm.2 (some ln)).layers.lookup ln = _
      rw [lookup_add_mapping_self a nm.2 ln hln]
      rfl
    · show (addLayerEntries ln (a.add_mapping nm.2 (some ln)) d').layers.lookup ln = _
      rw [ih (a.add_mapping nm.2 (some ln)) hd',
        lookup_add_mapping_self a nm.2 ln hln]
      rfl

theorem rebuildLayers_meta (L : List (String × List (Int × PadMapping))) :
    ∀ a : Profile,
    (rebuildLayers a L).name = a.name
    ∧ (rebuildLayers a L).description = a.description
    ∧ (rebuildLayers a L).base_layer = a.base_layer := by
  induction L with
  | nil => exact fun a => ⟨rfl, rfl, rfl⟩
  | cons l1 Lr ih =>
    intro a
    have h1 := addLayerEntries_meta l1.1 l1.2 a
    have h2 := ih (addLayerEntries l1.1 a l1.2)
    exact ⟨h2.1.trans h1.1, h2.2.1.trans h1.2.1, h2.2.2.trans h1.2.2⟩

theorem rebuildLayers_lookup (L : List (String × List (Int × PadMapping))) :
    ∀ (a : Profile) (ln : String),
    (∀ e ∈ L, e.1 ≠ "") → ((L.map Prod.fst).Nodup) →
    (rebuildLayers a L).layers.lookup ln =
      (match L.lookup ln with
      | some d =>
        if d = [] then a.layers.lookup ln
        else some (d.foldl (fun dd nm => dictInsert dd nm.2.note nm.2)
            ((a.layers.lookup ln).getD []))
      | none => a.layers.lookup ln) := by
  induction L with
  | nil => exact fun a ln _ _ => rfl
  | cons l1 Lr ih =>
    intro a ln hne hnodup
    obtain ⟨n1, d1⟩ := l1
    have hne1 : n1 ≠ "" := hne (n1, d1) (by simp)
    have hneR : ∀ e ∈ Lr, e.1 ≠ "" := fun e he => hne e (by simp [he])
    simp only [List.map_cons, List.nodup_cons] at hnodup
    obtain ⟨hnotin, hnodupR⟩ := hnodup
    show (rebuildLayers (addLayerEntries n1 a d1) Lr).layers.lookup ln = _
    rw [ih (addLayerEntries n1 a d1) ln hneR hnodupR]
    by_cases hl : ln = n1
    · subst hl
      have hLr : Lr.lookup ln = none :=
        lookup_eq_none_of_not_mem Lr ln hnotin
      have hcons : ((ln, d1) :: Lr).lookup ln = some d1 := by
        simp [List.lookup]
      simp only [hLr, hcons]
      by_cases hd1 : d1 = []
      · subst hd1
        simp only [if_pos rfl]
        rfl
      · rw [if_neg hd1]
        exact addLayerEntries_lookup_self ln d1 hne1 a hd1
    · have hhead : ((n1, d1) :: Lr).lookup ln = Lr.lookup ln := by
        have hb : (ln == n1) = false := beq_eq_false_iff_ne.mpr hl
        simp [List.lookup, hb]
      rw [addLayerEntries_lookup_other n1 ln d1 hne1 hl a, hhead]

/-- The round-trip proof for one mapping: `PadMapping.from_dict` of
`PadMapping.to_dict` restores every field. -/
theorem pm_round_trip (m : PadMapping) :
    PadMapping.from_dict (PadMapping.to_dict m) = some m := by
  cases m
  rfl

theorem foldlM_entries (ln : String) (d : List (Int × PadMapping)) :
    ∀ acc : Profile,
    ((d.map (fun nm => (toString nm.1, nm.2.to_dict))).foldlM
      (fromDictAdd (some ln)) acc)
      = some (addLayerEntries ln acc d) := by
  induction d with
  | nil => exact fun acc => rfl
  | cons nm d' ih =>
    intro acc
    have hstep : fromDictAdd (some ln) acc (toString nm.1, nm.2.to_dict)
        = some (acc.add_mapping nm.2 (some ln)) := by
      show Option.bind (PadMapping.from_dict (PadMapping.to_dict nm.2))
          (fun m => some (acc.add_mapping m (some ln))) = _
      rw [pm_round_trip]
      rfl
    simp only [List.map_cons, List.foldlM_cons, hstep]
    exact ih (acc.add_mapping nm.2 (some ln))

theorem foldlM_layers (L : List (String × List (Int × PadMapping))) :
    ∀ acc : Profile,
    ((L.map (fun e => (e.1, e.2.map (fun nm => (toString nm.1, nm.2.to_dict))))).foldlM
      (fun a layer => layer.2.foldlM (fromDictAdd (some layer.1)) a) acc)
      = some (rebuildLayers acc L) := by
  induction L with
  | nil => exact fun acc => rfl
  | cons l1 Lr ih =>
    intro acc
    simp only [List.map_cons, List.foldlM_cons, foldlM_entries]
    exact ih (addLayerEntries l1.1 acc l1.2)

/-- The profile `Profile.from_dict` starts from when reading
`Profile.to_dict p`. -/
def rebuildStart (p : Profile) : Profile :=
  { name := p.name, description := p.description
    base_layer := p.base_layer, layers := [(p.base_layer, [])] }

theorem from_to_dict (p : Profile) :
    Profile.from_dict (Profile.to_dict p)
      = some ((rebuildLayers (rebuildStart p) p.layers).ensure_layer
          p.base_layer) := by
  unfold Profile.from_dict Profile.to_dict
  dsimp only
  cases hL : p.layers with
  | nil => rfl
  | cons l0 ls =>
    simp only [Option.getD_some, Option.getD_none]
    rw [show (List.map (fun e =>
        (e.1, e.2.map (fun nm => (toString nm.1, nm.2.to_dict)))) (l0 :: ls)).isEmpty
      = false from by simp]
    simp only [Bool.false_eq_true, if_false]
    rw [foldlM_layers (l0 :: ls)]
    have hbind : ∀ x : Profile,
        ((some x : Option Profile) >>= fun y =>
          some (y.ensure_layer y.base_layer)) = some (x.ensure_layer x.base_layer) :=
      fun x => rfl
    rw [hbind]
    rw [(rebuildLayers_meta (l0 :: ls)
      { Profile.mkNew p.name p.base_layer with description := p.description }).2.2]
    rfl

/-- C10 (amended): for every Profile whose base layer is present, whose
layer names are distinct and non-empty, whose non-base layers are
non-empty, whose per-layer note keys are distinct, and in which each layer
stores every mapping under a key equal to that mapping's note field,
`Profile.from_dict (profile.to_dict())` yields a Profile with equal name,
description and base layer and with exactly the same layer dicts: lookup of
every layer name, and of every note within it, is unchanged. (As stated in
the claim the property fails: an empty non-base layer is dropped by the
round trip — see the counterexample.) -/
theorem c10_profile_round_trip (p : Profile)
    (hkeys : ∀ layer ∈ p.layers, ∀ e ∈ layer.2, e.2.note = e.1)
    (hnames : (p.layers.map Prod.fst).Nodup)
    (hnotes : ∀ layer ∈ p.layers, (layer.2.map Prod.fst).Nodup)
    (hnonempty : ∀ layer ∈ p.layers, layer.1 ≠ "")
    (hbase : (p.layers.lookup p.base_layer).isSome = true)
    (hfull : ∀ layer ∈ p.layers, layer.1 ≠ p.base_layer → layer.2 ≠ []) :
    ∃ q, Profile.from_dict (Profile.to_dict p) = some q
      ∧ q.name = p.name ∧ q.description = p.description
      ∧ q.base_layer = p.base_layer
      ∧ ∀ ln, q.layers.lookup ln = p.layers.lookup ln := by
  have hlookup : ∀ ln,
      (rebuildLayers (rebuildStart p) p.layers).layers.lookup ln
        = p.layers.lookup ln := by
    intro ln
    rw [rebuildLayers_lookup p.layers (rebuildStart p) ln hnonempty hnames]
    cases hp : p.layers.lookup ln with
    | none =>
      have hlnb : ln ≠ p.base_layer := by
        intro he
        rw [← he, hp] at hbase
        simp at hbase
      show (rebuildStart p).layers.lookup ln = none
      have hb : (ln == p.base_layer) = false := beq_eq_false_iff_ne.mpr hlnb
      simp [rebuildStart, List.lookup, hb]
    | some d =>
      dsimp only
      by_cases hd : d = []
      · have hmem := lookup_mem p.layers ln d hp
        by_cases hlb : ln = p.base_layer
        · subst hlb
          subst hd
          simp only [if_pos rfl]
          simp [rebuildStart, List.lookup]
        · exact absurd hd (hfull (ln, d) hmem hlb)
      · rw [if_neg hd]
        have hstart : ((rebuildStart p).layers.lookup ln).getD [] = [] := by
          by_cases hlb : ln = p.base_layer
          · subst hlb
            simp [rebuildStart, List.lookup]
          · have hb : (ln == p.base_layer) = false := beq_eq_false_iff_ne.mpr hlb
            simp [rebuildStart, List.lookup, hb]
        rw [hstart]
        have hmem := lookup_mem p.layers ln d hp
        rw [foldl_add_entries d [] (hkeys (ln, d) hmem) (hnotes (ln, d) hmem)
          (by simp)]
        simp
  have hbase0 : ((rebuildLayers (rebuildStart p) p.layers).layers.lookup
      p.base_layer).isSome = true := by
    rw [hlookup]
    exact hbase
  have hens : (rebuildLayers (rebuildStart p) p.layers).ensure_layer
      p.base_layer = rebuildLayers (rebuildStart p) p.layers := by
    unfold Profile.ensure_layer
    rw [if_pos hbase0]
  refine ⟨rebuildLayers (rebuildStart p) p.layers, ?_, ?_, ?_, ?_, hlookup⟩
  · rw [from_to_dict p, hens]
  · exact (rebuildLayers_meta p.layers (rebuildStart p)).1
  · exact (rebuildLayers_meta p.layers (rebuildStart p)).2.1
  · exact (rebuildLayers_meta p.layers (rebuildStart p)).2.2

/-- A two-layer profile, every mapping keyed by its note, every layer
non-empty. -/
def roundTripExampleProfile : Profile :=
  { name := "P", description := "d", base_layer := "Base"
    layers := [("Base", [(36, mkMapping 36 "a")]),
      ("Foo", [(40, mkMapping 40 "b")])] }

/-- Concrete instance of the amended C10: the example profile round-trips
with identical metadata and layer dicts. -/
theorem c10_profile_round_trip_witness :
    ∃ q, Profile.from_dict (Profile.to_dict roundTripExampleProfile) = some q
      ∧ q.name = roundTripExampleProfile.name
      ∧ q.description = roundTripExampleProfile.description
      ∧ q.base_layer = roundTripExampleProfile.base_layer
      ∧ ∀ ln, q.layers.lookup ln = roundTripExampleProfile.layers.lookup ln :=
  c10_profile_round_trip roundTripExampleProfile (by decide) (by decide)
    (by decide) (by decide) (by decide) (by decide)

/-! ### Schema validation and profile import (claim C5) -/

/-- A JSON value as Python's `json.loads` produces it. An object is an
ordered, duplicate-free association list. -/
inductive Json where
  | null
  | bool (b : Bool)
  | int (n : Int)
  | float (q : Rat)
  | str (s : String)
  | arr (items : List Json)
  | obj (fields : List (String × Json))

/-- Python `value is None`. -/
def Json.isNull : Json → Bool
  | .null => true
  | _ => false

/-- The Python type name of a JSON value, `type(value).__name__`. -/
def Json.typeName : Json → String
  | .null => "NoneType"
  | .bool _ => "bool"
  | .int _ => "int"
  | .float _ => "float"
  | .str _ => "str"
  | .arr _ => "list"
  | .obj _ => "dict"

/-- Python `data.get(key, default)` on an object's field list. -/
def jgetD (fields : List (String × Json)) (k : String) (default : Json) : Json :=
  (fields.lookup k).getD default

/-- `ValidationError(message, field)`. -/
structure ValidationErr where
  message : String
  field : Option String
  deriving Repr, DecidableEq

/-- `validate_string`. -/
def validate_string (value : Json) (field : String) (max_length : Nat)
    (allow_empty : Bool) : Except ValidationErr String :=
  match value with
  | .str s =>
    if s.length > max_length then
      .error ⟨"String exceeds maximum length of " ++ toString max_length,
        some field⟩
    else if allow_empty = false ∧ s = "" then
      .error ⟨"String cannot be empty", some field⟩
    else .ok s
  | v => .error ⟨"Expected str, got " ++ v.typeName, some field⟩

/-- `validate_int` (a Python `bool` is rejected explicitly). -/
def validate_int (value : Json) (field : String)
    (min_val max_val : Option Int) : Except ValidationErr Int :=
  match value with
  | .bool _ => .error ⟨"Expected integer, got boolean", some field⟩
  | .int n =>
    match min_val with
    | some lo =>
      if n < lo then
        .error ⟨"Value must be >= " ++ toString lo, some field⟩
      else
        match max_val with
        | some hi =>
          if n > hi then
            .error ⟨"Value must be <= " ++ toString hi, some field⟩
          else .ok n
        | none => .ok n
    | none =>
      match max_val with
      | some hi =>
        if n > hi then
          .error ⟨"Value must be <= " ++ toString hi, some field⟩
        else .ok n
      | none => .ok n
  | v => .error ⟨"Expected integer, got " ++ v.typeName, some field⟩

/-- The bounds check of `validate_float`. -/
def checkFloatBounds (q : Rat) (field : String)
    (min_val max_val : Option Rat) : Except ValidationErr Rat :=
  match min_val with
  | some lo =>
    if q < lo then
      .error ⟨"Value must be >= " ++ toString lo, some field⟩
    else
      match max_val with
      | some hi =>
        if q > hi then
          .error ⟨"Value must be <= " ++ toString hi, some field⟩
        else .ok q
      | none => .ok q
  | none =>
    match max_val with
    | some hi =>
      if q > hi then
        .error ⟨"Value must be <= " ++ toString hi, some field⟩
      else .ok q
    | none => .ok q

/-- `validate_float`: accepts `int` or `float`, rejects `bool`. -/
def validate_float (value : Json) (field : String)
    (min_val max_val : Option Rat) : Except ValidationErr Rat :=
  match value with
  | .bool _ => .error ⟨"Expected number, got boolean", some field⟩
  | .int n => checkFloatBounds (n : Rat) field min_val max_val
  | .float q => checkFloatBounds q field min_val max_val
  | v => .error ⟨"Expected number, got " ++ v.typeName, some field⟩

/-- `validate_bool`. -/
def validate_bool (value : Json) (field : String) : Except ValidationErr Bool :=
  match value with
  | .bool b => .ok b
  | v => .error ⟨"Expected bool, got " ++ v.typeName, some field⟩

/-- `validate_dict`: returns the field list. -/
def validate_dict (value : Json) (field : String) :
    Except ValidationErr (List (String × Json)) :=
  match value with
  | .obj fields => .ok fields
  | v => .error ⟨"Expected dict, got " ++ v.typeName, some field⟩

/-- `validate_list` with an optional maximum length. -/
def validate_list (value : Json) (field : String) (max_length : Option Nat) :
    Except ValidationErr (List Json) :=
  match value with
  | .arr items =>
    match max_length with
    | some mx =>
      if items.length > mx then
        .error ⟨"List exceeds maximum length of " ++ toString mx, some field⟩
      else .ok items
    | none => .ok items
  | v => .error ⟨"Expected list, got " ++ v.typeName, some field⟩

/-- The `VALID_COLORS` set, in source order. -/
def VALID_COLORS : List String :=
  ["off", "white", "red", "red_dim", "orange", "orange_dim", "yellow",
   "yellow_dim", "lime", "lime_dim", "green", "green_dim", "spring",
   "spring_dim", "cyan", "cyan_dim", "sky", "sky_dim", "blue", "blue_dim",
   "purple", "purple_dim", "magenta", "magenta_dim", "pink", "pink_dim",
   "coral", "coral_dim", "amber", "amber_dim"]

/-- The `VALID_COLORS` set as `sorted(...)` renders it in the error
message. -/
def VALID_COLORS_SORTED : List String :=
  ["amber", "amber_dim", "blue", "blue_dim", "coral", "coral_dim", "cyan",
   "cyan_dim", "green", "green_dim", "lime", "lime_dim", "magenta",
   "magenta_dim", "off", "orange", "orange_dim", "pink", "pink_dim",
   "purple", "purple_dim", "red", "red_dim", "sky", "sky_dim", "spring",
   "spring_dim", "white", "yellow", "yellow_dim"]

/-- A hexadecimal digit, the character class `int(s, 16)` accepts. -/
def isHexDigit (c : Char) : Bool :=
  c.isDigit || ('a' ≤ c && c ≤ 'f') || ('A' ≤ c && c ≤ 'F')

/-- `validate_color`: a 4- or 7-character hex color or a palette name. -/
def validate_color (value : Json) (field : String) :
    Except ValidationErr String := do
  let s ← validate_string value field 1000 true
  if s.data.head? = some '#' then
    if s.length ≠ 4 ∧ s.length ≠ 7 then
      .error ⟨"Invalid hex color format", some field⟩
    else if (s.data.drop 1).all isHexDigit then .ok s
    else .error ⟨"Invalid hex color", some field⟩
  else if VALID_COLORS.contains s then .ok s
  else
    .error ⟨"Invalid color. Must be hex or one of: "
      ++ String.intercalate ", " VALID_COLORS_SORTED, some field⟩

/-- The shell metacharacters `validate_key_combo` rejects (character 96 is
the backtick). -/
def dangerous_chars : List Char :=
  [Char.ofNat 96, '$', '|', '>', '<', ';', '&', '\n', '\r']

/-- `validate_key_combo`: a string of at most 500 characters containing no
shell metacharacter (the offending character is reported). -/
def validate_key_combo (value : Json) (field : String) :
    Except ValidationErr String := do
  let s ← validate_string value field 500 true
  match dangerous_chars.find? (fun c => s.data.contains c) with
  | some c =>
    .error ⟨"Invalid character in key combo: " ++ String.singleton c,
      some field⟩
  | none => .ok s

/-- `validate_macro_step`: the optional `key_combo` and `delay_after`
fields of one step. -/
def validate_macro_step (step : Json) (field : String) :
    Except ValidationErr MacroStepData := do
  let fields ← validate_dict step field
  let key_combo ← match fields.lookup "key_combo" with
    | some v => do
      let r ← validate_key_combo v (field ++ ".key_combo")
      pure (some r)
    | none => pure none
  let delay_after ← match fields.lookup "delay_after" with
    | some v => do
      let r ← validate_float v (field ++ ".delay_after") (some 0) (some 60)
      pure (some r)
    | none => pure none
  .ok ⟨key_combo, delay_after⟩

/-- `validate_velocity_mappings`: at most 20 entries, each key a
`min-max` range within 0–127 with `min <= max`, each value a key combo. -/
def validate_velocity_mappings (value : Json) (field : String) :
    Except ValidationErr (List (String × String)) := do
  let fields ← validate_dict value field
  if fields.length > 20 then
    .error ⟨"Too many velocity mappings (max 20)", some field⟩
  else
    fields.foldlM (fun acc kv => do
      let range_str := kv.1
      let _ ← validate_string (.str range_str) (field ++ ".key") 1000 true
      match splitDash range_str.data with
      | [a, b] =>
        match pyInt a, pyInt b with
        | some low, some high =>
          if 0 ≤ low ∧ low ≤ 127 ∧ 0 ≤ high ∧ high ≤ 127 ∧ low ≤ high then do
            let combo ← validate_key_combo kv.2 (field ++ "." ++ range_str)
            .ok (acc ++ [(range_str, combo)])
          else
            .error ⟨"Invalid velocity range: " ++ range_str
              ++ ". Values must be 0-127", some field⟩
        | _, _ =>
          .error ⟨"Invalid velocity range: " ++ range_str
            ++ ". Values must be 0-127", some field⟩
      | _ =>
        .error ⟨"Invalid velocity range format: " ++ range_str ++ ". Use "
          ++ apos ++ "min-max" ++ apos, some field⟩) []

/-- The `VALID_ACTIONS` set, in source order. -/
def VALID_ACTIONS : List String := ["key", "layer", "layer_up", "macro"]

/-- `validate_pad_mapping`: the complete per-mapping validation, fields
checked in source order. -/
def validate_pad_mapping (data : Json) (field : String) :
    Except ValidationErr MappingData := do
  let fields ← validate_dict data field
  let note ← validate_int (jgetD fields "note" .null) (field ++ ".note")
    (some 0) (some 127)
  let key_combo ← validate_key_combo (jgetD fields "key_combo" (.str ""))
    (field ++ ".key_combo")
  let color ← validate_color (jgetD fields "color" (.str "green"))
    (field ++ ".color")
  let label ← validate_string (jgetD fields "label" (.str ""))
    (field ++ ".label") 100 true
  let enabled ← validate_bool (jgetD fields "enabled" (.bool true))
    (field ++ ".enabled")
  let action ← match jgetD fields "action" (.str "key") with
    | .str a =>
      if VALID_ACTIONS.contains a then pure a
      else
        Except.error ⟨"Invalid action. Must be one of: "
          ++ String.intercalate ", " VALID_ACTIONS, some (field ++ ".action")⟩
    | _ =>
      Except.error ⟨"Invalid action. Must be one of: "
        ++ String.intercalate ", " VALID_ACTIONS, some (field ++ ".action")⟩
  let target_layer ← match fields.lookup "target_layer" with
    | some v =>
      if v.isNull then pure none
      else do
        let r ← validate_string v (field ++ ".target_layer") 100 true
        pure (some r)
    | none => pure none
  let repeat_enabled ← validate_bool (jgetD fields "repeat_enabled" (.bool false))
    (field ++ ".repeat_enabled")
  let repeat_delay ← validate_float (jgetD fields "repeat_delay" (.float (1/2)))
    (field ++ ".repeat_delay") (some 0) (some 10)
  let repeat_interval ← validate_float
    (jgetD fields "repeat_interval" (.float (1/20)))
    (field ++ ".repeat_interval") (some (1/100)) (some 10)
  let macro_steps ← match fields.lookup "macro_steps" with
    | some v =>
      if v.isNull then pure none
      else do
        let steps ← validate_list v (field ++ ".macro_steps") (some 100)
        let validated ← steps.enum.foldlM (fun acc iv => do
          let r ← validate_macro_step iv.2
            (field ++ ".macro_steps[" ++ toString iv.1 ++ "]")
          pure (acc ++ [r])) []
        pure (some validated)
    | none => pure none
  let velocity_mappings ← match fields.lookup "velocity_mappings" with
    | some v =>
      if v.isNull then pure none
      else do
        let r ← validate_velocity_mappings v (field ++ ".velocity_mappings")
        pure (some r)
    | none => pure none
  let long_press_enabled ← validate_bool
    (jgetD fields "long_press_enabled" (.bool false))
    (field ++ ".long_press_enabled")
  let long_press_action ← validate_key_combo
    (jgetD fields "long_press_action" (.str ""))
    (field ++ ".long_press_action")
  let long_press_threshold ← validate_float
    (jgetD fields "long_press_threshold" (.float (1/2)))
    (field ++ ".long_press_threshold") (some (1/10)) (some 10)
  .ok { note := some note, key_combo := some key_combo, color := some color
        label := some label, enabled := some enabled, action := some action
        target_layer := target_layer, repeat_enabled := some repeat_enabled
        repeat_delay := some repeat_delay
        repeat_interval := some repeat_interval, macro_steps := macro_steps
        velocity_mappings := velocity_mappings
        long_press_enabled := some long_press_enabled
        long_press_action := some long_press_action
        long_press_threshold := some long_press_threshold }

/-- The per-layer part of `validate_profile`: the layer-count cap, then
each layer name, layer dict, mapping cap, note key, and mapping in stored
order. -/
def validate_profile_layers (field : String) (ldict : List (String × Json)) :
    Except ValidationErr (List (String × List (String × MappingData))) :=
  if ldict.length > 50 then
    .error ⟨"Too many layers (max 50)", some (field ++ ".layers")⟩
  else
    ldict.foldlM (fun acc kv => do
      let layer_field := field ++ ".layers." ++ kv.1
      let _ ← validate_string (.str kv.1) (layer_field ++ " (key)") 100 true
      let mfields ← validate_dict kv.2 layer_field
      if mfields.length > 500 then
        Except.error ⟨"Too many mappings in layer (max 500)", some layer_field⟩
      else do
        let lmaps ← mfields.foldlM (fun acc2 nv => do
          let mapping_field := layer_field ++ "." ++ nv.1
          match pyInt nv.1.data with
          | none =>
            Except.error ⟨"Invalid note key: " ++ nv.1, some mapping_field⟩
          | some k => do
            let vm ← validate_pad_mapping nv.2 mapping_field
            pure (acc2 ++ [(toString k, vm)])) []
        pure (acc ++ [(kv.1, lmaps)])) []

/-- The legacy flat-`mappings` part of `validate_profile`. -/
def validate_profile_mappings (field : String)
    (mfields : List (String × Json)) :
    Except ValidationErr (List (String × MappingData)) :=
  if mfields.length > 500 then
    .error ⟨"Too many mappings (max 500)", some (field ++ ".mappings")⟩
  else
    mfields.foldlM (fun acc2 nv => do
      let mapping_field := field ++ ".mappings." ++ nv.1
      match pyInt nv.1.data with
      | none => Except.error ⟨"Invalid note key: " ++ nv.1, some mapping_field⟩
      | some k => do
        let vm ← validate_pad_mapping nv.2 mapping_field
        pure (acc2 ++ [(toString k, vm)])) []

/-- `validate_profile`: profile metadata, then the layers dict (when
present and non-null), else the legacy flat `mappings` dict, else an empty
profile. -/
def validate_profile (data : Json) (field : String) :
    Except ValidationErr ProfileData := do
  let fields ← validate_dict data field
  let name ← validate_string (jgetD fields "name" (.str "Imported"))
    (field ++ ".name") 100 false
  let description ← validate_string (jgetD fields "description" (.str ""))
    (field ++ ".description") 1000 true
  let base_layer ← validate_string (jgetD fields "base_layer" (.str "Base"))
    (field ++ ".base_layer") 100 false
  let layersOpt : Option Json := match fields.lookup "layers" with
    | some v => if v.isNull then none else some v
    | none => none
  match layersOpt with
  | some layers_data => do
    let ldict ← validate_dict layers_data (field ++ ".layers")
    let layers ← validate_profile_layers field ldict
    .ok { name := some name, description := some description
          base_layer := some base_layer, layers := some layers
          mappings := none }
  | none =>
    match fields.lookup "mappings" with
    | some mappings_j => do
      let mfields ← validate_dict mappings_j (field ++ ".mappings")
      let lmaps ← validate_profile_mappings field mfields
      .ok { name := some name, description := some description
            base_layer := some base_layer
            layers := some [(base_layer, lmaps)], mappings := none }
    | none =>
      .ok { name := some name, description := some description
            base_layer := some base_layer
            layers := some [(base_layer, [])], mappings := none }

/-- `MAX_PROFILE_SIZE_BYTES = 10 * 1024 * 1024`. -/
def MAX_PROFILE_SIZE_BYTES : Nat := 10 * 1024 * 1024

/-- The structure check and warning computation of
`validate_profile_import` after the raw-size gate. -/
def validateProfileImportChecked (data : Json) :
    Except ValidationErr (ProfileData × List String) := do
  let validated ← validate_profile data "profile"
  let total := (validated.layers.getD []).foldl
    (fun acc l => acc + l.2.length) 0
  let warnings := if total > 1000 then
    ["Profile contains " ++ toString total
      ++ " mappings, which may impact performance"] else []
  .ok (validated, warnings)

/-- `validate_profile_import(data, raw_size)`: the raw-size cap (whose
error carries no field; the Python message also renders the sizes), then
the structural validation and the performance warning. -/
def validate_profile_import (data : Json) (raw_size : Option Nat) :
    Except ValidationErr (ProfileData × List String) :=
  match raw_size with
  | some n =>
    if n > MAX_PROFILE_SIZE_BYTES then
      .error ⟨"Profile too large. Maximum size is 10MB", none⟩
    else validateProfileImportChecked data
  | none => validateProfileImportChecked data

/-- Python truthiness of `request.json or {}` combined with `if not data`. -/
def Json.falsy : Json → Bool
  | .null => true
  | .bool b => !b
  | .int n => n == 0
  | .float q => q == 0
  | .str s => s.isEmpty
  | .arr items => items.isEmpty
  | .obj fields => fields.isEmpty

/-- The JSON body `import_profile` returns. -/
structure ImportResponse where
  success : Bool
  error : Option String
  field : Option String
  warnings : List String
  profile : Option ProfileData
  deriving Repr, DecidableEq

/-- The server state `import_profile` may mutate: the profile registry, the
mapper's active profile, and the layer stack. -/
structure ServerState where
  profiles : List (String × Profile)
  mapper_profile : Profile
  layer_stack : List String
  deriving Repr, DecidableEq

/-- `profiles[profile.name] = profile` followed by
`mapper.set_profile(profile)`. -/
def mapper_set_profile (st : ServerState) (p : Profile) : ServerState :=
  { profiles := dictInsert st.profiles p.name p
    mapper_profile := p
    layer_stack := [p.base_layer] }

/-- The `/api/profile/import` endpoint of `server.py`: empty-body guard,
schema validation (rejecting before any mutation), then profile
construction and the atomic swap. `none` embeds an uncaught exception. -/
def api_import_profile (st : ServerState) (data : Json) (raw_size : Nat) :
    Option (ImportResponse × ServerState) :=
  if data.falsy then
    some ({ success := false, error := some "No profile data provided"
            field := none, warnings := [], profile := none }, st)
  else
    match validate_profile_import data (some raw_size) with
    | .error e =>
      some ({ success := false
              error := some ("Validation error: " ++ e.message)
              field := e.field, warnings := [], profile := none }, st)
    | .ok (validated, warnings) =>
      match Profile.from_dict validated with
      | none => none
      | some profile =>
        let st' := mapper_set_profile st profile
        some ({ success := true, error := none, field := none
                warnings := warnings
                profile := some st'.mapper_profile.to_dict }, st')

theorem validate_profile_layers_too_many (field : String)
    (ldict : List (String × Json)) (h : 50 < ldict.length) :
    validate_profile_layers field ldict
      = .error ⟨"Too many layers (max 50)", some (field ++ ".layers")⟩ := by
  unfold validate_profile_layers
  rw [if_pos h]

theorem validate_profile_oversized (L : List (String × Json))
    (hL : 50 < L.length) :
    validate_profile (Json.obj [("layers", Json.obj L)]) "profile"
      = .error ⟨"Too many layers (max 50)", some "profile.layers"⟩ := by
  show ((validate_profile_layers "profile" L) >>= (fun layers =>
    (Except.ok ({ name := some "Imported", description := some ""
                  base_layer := some "Base", layers := some layers
                  mappings := none } : ProfileData)
      : Except ValidationErr ProfileData))) = _
  rw [validate_profile_layers_too_many "profile" L hL]
  rfl

/-- C5: importing a profile whose layer count exceeds the configured
maximum of 50 is rejected before any mutation: for every server state, the
endpoint returns a field-qualified validation error
(`profile.layers`, "Too many layers (max 50)") and the state — active
profile, its mappings, and the layer stack — is returned unchanged. -/
theorem c5_import_rejected_before_mutation (st : ServerState)
    (raw_size : Nat) (L : List (String × Json))
    (hraw : raw_size ≤ MAX_PROFILE_SIZE_BYTES) (hL : 50 < L.length)
    (hnodup : (L.map Prod.fst).Nodup) :
    api_import_profile st (Json.obj [("layers", Json.obj L)]) raw_size
      = some ({ success := false
                error := some "Validation error: Too many layers (max 50)"
                field := some "profile.layers", warnings := []
                profile := none }, st) := by
  unfold api_import_profile
  rw [show (Json.obj [("layers", Json.obj L)]).falsy = false from rfl]
  simp only [Bool.false_eq_true, if_false]
  have hv : validate_profile_import (Json.obj [("layers", Json.obj L)])
      (some raw_size)
      = .error ⟨"Too many layers (max 50)", some "profile.layers"⟩ := by
    unfold validate_profile_import
    dsimp only
    rw [if_neg (Nat.not_lt.mpr hraw)]
    unfold validateProfileImportChecked
    rw [validate_profile_oversized L hL]
    rfl
  rw [hv]
  rfl

/-- Fifty-one distinct single-character layer names, each an empty layer. -/
def oversizedLayersJson : List (String × Json) :=
  (List.range 51).map (fun i =>
    (String.singleton (Char.ofNat (65 + i)), Json.obj []))

/-- The server state used to instantiate C5. -/
def exampleServerState : ServerState :=
  { profiles := [("Default", Profile.mkNew "Default" "Base")]
    mapper_profile := Profile.mkNew "Default" "Base"
    layer_stack := ["Base"] }

/-- Concrete instance of C5: importing a 51-layer profile returns the
field-qualified layer-count error and leaves the server state untouched. -/
theorem c5_import_rejected_before_mutation_witness :
    api_import_profile exampleServerState
      (Json.obj [("layers", Json.obj oversizedLayersJson)]) 1000
      = some ({ success := false
                error := some "Validation error: Too many layers (max 50)"
                field := some "profile.layers", warnings := []
                profile := none }, exampleServerState) :=
  c5_import_rejected_before_mutation exampleServerState 1000
    oversizedLayersJson (by decide) (by decide) (by decide)

end Launchpad
